import Mathlib

/-!
Shallow embedding of the YMF262 (OPL3) FM sound chip emulation core from
`src/sound/YMF262.cc`, together with proofs about its envelope generator,
key-on/key-off logic, register decoder, status interface, reset sequence and
sample-generation fast path.

Machine integers are modelled as `Nat`/`Int` with explicit masking where the
C++ code relies on wrapping; `int` arithmetic shifts are modelled with
arithmetic shift on `Int` (two's complement `>>`), and the C bitwise
complement `~x` on `int` is modelled as `-x - 1`.
-/

set_option maxRecDepth 100000
set_option maxHeartbeats 3200000

namespace YMF262

/-- Envelope output resolution constants from the source. -/
def ENV_BITS : Nat := 10

/-- Maximum attenuation index `(1 << (ENV_BITS - 1)) - 1 = 511`. -/
def MAX_ATT_INDEX : Int := (1 <<< (ENV_BITS - 1)) - 1

/-- Minimum attenuation index (loudest). -/
def MIN_ATT_INDEX : Int := 0

/-- Sine table size constants. -/
def SIN_BITS : Nat := 10

def SIN_LEN : Nat := 1 <<< SIN_BITS

def SIN_MASK : Nat := SIN_LEN - 1

def TL_RES_LEN : Nat := 256

/-- Total-level table length `13 * 2 * TL_RES_LEN`. -/
def TL_TAB_LEN : Nat := 13 * 2 * TL_RES_LEN

/-- Quiet threshold `TL_TAB_LEN >> 4` used by the mute check. -/
def ENV_QUIET : Int := (TL_TAB_LEN : Int) / 16

/-- Envelope generator phase, `enum EnvelopeState` in the source. -/
inductive EnvelopeState where
  | EG_ATTACK
  | EG_DECAY
  | EG_SUSTAIN
  | EG_RELEASE
  | EG_OFF
deriving DecidableEq, Repr

export EnvelopeState (EG_ATTACK EG_DECAY EG_SUSTAIN EG_RELEASE EG_OFF)

def RATE_STEPS : Nat := 8

/-- Envelope increment table `eg_inc` (15 rows of `RATE_STEPS` entries). -/
def eg_inc : Array Int := #[
  0x00,0x01, 0x00,0x01, 0x00,0x01, 0x00,0x01,
  0x00,0x01, 0x00,0x01, 0x01,0x01, 0x00,0x01,
  0x00,0x01, 0x01,0x01, 0x00,0x01, 0x01,0x01,
  0x00,0x01, 0x01,0x01, 0x01,0x01, 0x01,0x01,
  0x01,0x01, 0x01,0x01, 0x01,0x01, 0x01,0x01,
  0x01,0x01, 0x01,0x02, 0x01,0x01, 0x01,0x02,
  0x01,0x02, 0x01,0x02, 0x01,0x02, 0x01,0x02,
  0x01,0x02, 0x02,0x02, 0x01,0x02, 0x02,0x02,
  0x02,0x02, 0x02,0x02, 0x02,0x02, 0x02,0x02,
  0x02,0x02, 0x02,0x04, 0x02,0x02, 0x02,0x04,
  0x02,0x04, 0x02,0x04, 0x02,0x04, 0x02,0x04,
  0x02,0x04, 0x04,0x04, 0x02,0x04, 0x04,0x04,
  0x04,0x04, 0x04,0x04, 0x04,0x04, 0x04,0x04,
  0x08,0x08, 0x08,0x08, 0x08,0x08, 0x08,0x08,
  0x00,0x00, 0x00,0x00, 0x00,0x00, 0x00,0x00]

/-- Indexing into `eg_inc`; in C this is a plain array read. -/
def egIncAt (i : Nat) : Int := eg_inc.getD i 0

/-- Envelope rate selector table `eg_rate_select` (16 + 64 + 16 entries),
with `O(a) = a * RATE_STEPS`. -/
def eg_rate_select : Array Nat := #[
  0x70, 0x70, 0x70, 0x70, 0x70, 0x70, 0x70, 0x70,
  0x70, 0x70, 0x70, 0x70, 0x70, 0x70, 0x70, 0x70,
  0x00, 0x08, 0x10, 0x18,
  0x00, 0x08, 0x10, 0x18,
  0x00, 0x08, 0x10, 0x18,
  0x00, 0x08, 0x10, 0x18,
  0x00, 0x08, 0x10, 0x18,
  0x00, 0x08, 0x10, 0x18,
  0x00, 0x08, 0x10, 0x18,
  0x00, 0x08, 0x10, 0x18,
  0x00, 0x08, 0x10, 0x18,
  0x00, 0x08, 0x10, 0x18,
  0x00, 0x08, 0x10, 0x18,
  0x00, 0x08, 0x10, 0x18,
  0x00, 0x08, 0x10, 0x18,
  0x20, 0x28, 0x30, 0x38,
  0x40, 0x48, 0x50, 0x58,
  0x60, 0x60, 0x60, 0x60,
  0x60, 0x60, 0x60, 0x60, 0x60, 0x60, 0x60, 0x60,
  0x60, 0x60, 0x60, 0x60, 0x60, 0x60, 0x60, 0x60]

/-- Envelope counter shift table `eg_rate_shift` (16 + 64 + 16 entries). -/
def eg_rate_shift : Array Nat := #[
  0x00, 0x00, 0x00, 0x00, 0x00, 0x00, 0x00, 0x00,
  0x00, 0x00, 0x00, 0x00, 0x00, 0x00, 0x00, 0x00,
  0x0C, 0x0C, 0x0C, 0x0C,
  0x0B, 0x0B, 0x0B, 0x0B,
  0x0A, 0x0A, 0x0A, 0x0A,
  0x09, 0x09, 0x09, 0x09,
  0x08, 0x08, 0x08, 0x08,
  0x07, 0x07, 0x07, 0x07,
  0x06, 0x06, 0x06, 0x06,
  0x05, 0x05, 0x05, 0x05,
  0x04, 0x04, 0x04, 0x04,
  0x03, 0x03, 0x03, 0x03,
  0x02, 0x02, 0x02, 0x02,
  0x01, 0x01, 0x01, 0x01,
  0x00, 0x00, 0x00, 0x00,
  0x00, 0x00, 0x00, 0x00,
  0x00, 0x00, 0x00, 0x00,
  0x00, 0x00, 0x00, 0x00,
  0x00, 0x00, 0x00, 0x00, 0x00, 0x00, 0x00, 0x00,
  0x00, 0x00, 0x00, 0x00, 0x00, 0x00, 0x00, 0x00]

/-- Sustain level table `sl_tab`; `SC(db) = db * (2 / ENV_STEP) = db * 16`. -/
def sl_tab : Array Int := #[
  0x00, 0x10, 0x20, 0x30, 0x40, 0x50, 0x60, 0x70,
  0x80, 0x90, 0xA0, 0xB0, 0xC0, 0xD0, 0xE0, 0x1F0]

/-- Key scale level table `ksl_tab` (8 octaves of 16);
`DV(x) = (int)(x / (0.1875 / 2))`, exact on all listed entries. -/
def ksl_tab : Array Nat := #[
  0x00, 0x00, 0x00, 0x00, 0x00, 0x00, 0x00, 0x00,
  0x00, 0x00, 0x00, 0x00, 0x00, 0x00, 0x00, 0x00,
  0x00, 0x00, 0x00, 0x00, 0x00, 0x00, 0x00, 0x00,
  0x00, 0x08, 0x0C, 0x10, 0x14, 0x18, 0x1C, 0x20,
  0x00, 0x00, 0x00, 0x00, 0x00, 0x0C, 0x14, 0x1C,
  0x20, 0x28, 0x2C, 0x30, 0x34, 0x38, 0x3C, 0x40,
  0x00, 0x00, 0x00, 0x14, 0x20, 0x2C, 0x34, 0x3C,
  0x40, 0x48, 0x4C, 0x50, 0x54, 0x58, 0x5C, 0x60,
  0x00, 0x00, 0x20, 0x34, 0x40, 0x4C, 0x54, 0x5C,
  0x60, 0x68, 0x6C, 0x70, 0x74, 0x78, 0x7C, 0x80,
  0x00, 0x20, 0x40, 0x54, 0x60, 0x6C, 0x74, 0x7C,
  0x80, 0x88, 0x8C, 0x90, 0x94, 0x98, 0x9C, 0xA0,
  0x00, 0x40, 0x60, 0x74, 0x80, 0x8C, 0x94, 0x9C,
  0xA0, 0xA8, 0xAC, 0xB0, 0xB4, 0xB8, 0xBC, 0xC0,
  0x00, 0x60, 0x80, 0x94, 0xA0, 0xAC, 0xB4, 0xBC,
  0xC0, 0xC8, 0xCC, 0xD0, 0xD4, 0xD8, 0xDC, 0xE0]

/-- Operator multiple table `mul_tab`; `ML(x) = (byte)(2 * x)`. -/
def mul_tab : Array Nat := #[
  0x01, 0x02, 0x04, 0x06, 0x08, 0x0A, 0x0C, 0x0E, 0x10, 0x12, 0x14, 0x14, 0x18, 0x18, 0x1E, 0x1E]

/-- Register-offset to slot-number map `slot_array`; `none` models `-1`. -/
def slot_array : Array (Option Nat) := #[
  some 0, some 2, some 4, some 1, some 3, some 5, none, none,
  some 6, some 8, some 10, some 7, some 9, some 11, none, none,
  some 12, some 14, some 16, some 13, some 15, some 17, none, none,
  none, none, none, none, none, none, none, none]

def LFO_AM_TAB_ELEMENTS : Nat := 210

/-- LFO amplitude modulation table `lfo_am_table` (210 entries). -/
def lfo_am_table : Array Nat := #[
  0x00, 0x00, 0x00,
  0x00, 0x00, 0x00, 0x00,
  0x01, 0x01, 0x01, 0x01,
  0x02, 0x02, 0x02, 0x02,
  0x03, 0x03, 0x03, 0x03,
  0x04, 0x04, 0x04, 0x04,
  0x05, 0x05, 0x05, 0x05,
  0x06, 0x06, 0x06, 0x06,
  0x07, 0x07, 0x07, 0x07,
  0x08, 0x08, 0x08, 0x08,
  0x09, 0x09, 0x09, 0x09,
  0x0A, 0x0A, 0x0A, 0x0A,
  0x0B, 0x0B, 0x0B, 0x0B,
  0x0C, 0x0C, 0x0C, 0x0C,
  0x0D, 0x0D, 0x0D, 0x0D,
  0x0E, 0x0E, 0x0E, 0x0E,
  0x0F, 0x0F, 0x0F, 0x0F,
  0x10, 0x10, 0x10, 0x10,
  0x11, 0x11, 0x11, 0x11,
  0x12, 0x12, 0x12, 0x12,
  0x13, 0x13, 0x13, 0x13,
  0x14, 0x14, 0x14, 0x14,
  0x15, 0x15, 0x15, 0x15,
  0x16, 0x16, 0x16, 0x16,
  0x17, 0x17, 0x17, 0x17,
  0x18, 0x18, 0x18, 0x18,
  0x19, 0x19, 0x19, 0x19,
  0x1A, 0x1A, 0x1A,
  0x19, 0x19, 0x19, 0x19,
  0x18, 0x18, 0x18, 0x18,
  0x17, 0x17, 0x17, 0x17,
  0x16, 0x16, 0x16, 0x16,
  0x15, 0x15, 0x15, 0x15,
  0x14, 0x14, 0x14, 0x14,
  0x13, 0x13, 0x13, 0x13,
  0x12, 0x12, 0x12, 0x12,
  0x11, 0x11, 0x11, 0x11,
  0x10, 0x10, 0x10, 0x10,
  0x0F, 0x0F, 0x0F, 0x0F,
  0x0E, 0x0E, 0x0E, 0x0E,
  0x0D, 0x0D, 0x0D, 0x0D,
  0x0C, 0x0C, 0x0C, 0x0C,
  0x0B, 0x0B, 0x0B, 0x0B,
  0x0A, 0x0A, 0x0A, 0x0A,
  0x09, 0x09, 0x09, 0x09,
  0x08, 0x08, 0x08, 0x08,
  0x07, 0x07, 0x07, 0x07,
  0x06, 0x06, 0x06, 0x06,
  0x05, 0x05, 0x05, 0x05,
  0x04, 0x04, 0x04, 0x04,
  0x03, 0x03, 0x03, 0x03,
  0x02, 0x02, 0x02, 0x02,
  0x01, 0x01, 0x01, 0x01]

/-- LFO phase modulation table `lfo_pm_table` (8 * 8 * 2 signed entries). -/
def lfo_pm_table : Array Int := #[
  0x00, 0x00, 0x00, 0x00, 0x00, 0x00, 0x00, 0x00,
  0x00, 0x00, 0x00, 0x00, 0x00, 0x00, 0x00, 0x00,
  0x00, 0x00, 0x00, 0x00, 0x00, 0x00, 0x00, 0x00,
  0x01, 0x00, 0x00, 0x00, -0x01, 0x00, 0x00, 0x00,
  0x01, 0x00, 0x00, 0x00, -0x01, 0x00, 0x00, 0x00,
  0x02, 0x01, 0x00, -0x01, -0x02, -0x01, 0x00, 0x01,
  0x01, 0x00, 0x00, 0x00, -0x01, 0x00, 0x00, 0x00,
  0x03, 0x01, 0x00, -0x01, -0x03, -0x01, 0x00, 0x01,
  0x02, 0x01, 0x00, -0x01, -0x02, -0x01, 0x00, 0x01,
  0x04, 0x02, 0x00, -0x02, -0x04, -0x02, 0x00, 0x02,
  0x02, 0x01, 0x00, -0x01, -0x02, -0x01, 0x00, 0x01,
  0x05, 0x02, 0x00, -0x02, -0x05, -0x02, 0x00, 0x02,
  0x03, 0x01, 0x00, -0x01, -0x03, -0x01, 0x00, 0x01,
  0x06, 0x03, 0x00, -0x03, -0x06, -0x03, 0x00, 0x03,
  0x03, 0x01, 0x00, -0x01, -0x03, -0x01, 0x00, 0x01,
  0x07, 0x03, 0x00, -0x03, -0x07, -0x03, 0x00, 0x03]

/-- Arithmetic right shift on `Int` (the C `>>` on a signed `int`). -/
def sar (x : Int) (n : Nat) : Int := x >>> (n : Int)

/-- C bitwise complement `~x` on a signed `int`. -/
def cNot (x : Int) : Int := -x - 1

/-- Fixed-point phase increment from a block+fnum code.
Modelled from the spec: `FixedPoint.hh` is not part of the sources;
`FreqIndex` is a 16.16 fixed point value, so `FreqIndex(n) = n <<< 16`. -/
def fnumToIncrement (block_fnum : Nat) : Nat :=
  ((block_fnum &&& 0x03FF) <<< 16) >>> (11 - ((block_fnum &&& 0x1C00) >>> 10))

/-- Destination of a slot's output sample: the `connect` pointer of the
source, pointing into `chanout`, `phase_modulation` or `phase_modulation2`. -/
inductive Conn where
  | chan (n : Nat)
  | phaseMod
  | phaseMod2
deriving DecidableEq, Repr

/-- One FM operator, `class YMF262Slot`.  `Cnt`/`Incr` are 16.16 fixed-point
values stored as `Nat`; the `connect` pointer is a `Conn` tag; the
`wavetable` pointer is stored as the waveform index it points to. -/
structure Slot where
  Cnt : Nat
  Incr : Nat
  connect : Conn
  op1_out0 : Int
  op1_out1 : Int
  TL : Nat
  TLL : Int
  volume : Int
  sl : Int
  wavetable : Nat
  eg_m_ar : Nat
  eg_m_dr : Nat
  eg_m_rr : Nat
  eg_sh_ar : Nat
  eg_sel_ar : Nat
  eg_sh_dr : Nat
  eg_sel_dr : Nat
  eg_sh_rr : Nat
  eg_sel_rr : Nat
  key : Nat
  fb_shift : Nat
  CON : Bool
  eg_type : Bool
  state : EnvelopeState
  AMmask : Nat
  vib : Bool
  waveform_number : Nat
  ar : Nat
  dr : Nat
  rr : Nat
  KSR : Nat
  ksl : Nat
  ksr : Nat
  mul : Nat
deriving DecidableEq, Repr

/-- The default-constructed slot, `YMF262Slot::YMF262Slot()`. -/
def Slot.initial : Slot where
  Cnt := 0
  Incr := 0
  connect := Conn.chan 0
  op1_out0 := 0
  op1_out1 := 0
  TL := 0
  TLL := 0
  volume := 0
  sl := 0
  wavetable := 0
  eg_m_ar := 0
  eg_m_dr := 0
  eg_m_rr := 0
  eg_sh_ar := 0
  eg_sel_ar := 0
  eg_sh_dr := 0
  eg_sel_dr := 0
  eg_sh_rr := 0
  eg_sel_rr := 0
  key := 0
  fb_shift := 0
  CON := false
  eg_type := false
  state := EG_OFF
  AMmask := 0
  vib := false
  waveform_number := 0
  ar := 0
  dr := 0
  rr := 0
  KSR := 0
  ksl := 0
  ksr := 0
  mul := 0

/-- Key-on, `YMF262Slot::FM_KEYON`: restart the phase generator and enter
ATTACK only when no key source is currently held, then OR in the new bit. -/
def FM_KEYON (key_set : Nat) (s : Slot) : Slot :=
  if s.key = 0 then
    { s with Cnt := 0, state := EG_ATTACK, key := s.key ||| key_set }
  else
    { s with key := s.key ||| key_set }

/-- Key-off, `YMF262Slot::FM_KEYOFF`: clear the key bit; when the last key
source is released, a non-OFF state moves to RELEASE. -/
def FM_KEYOFF (key_clr : Nat) (s : Slot) : Slot :=
  if s.key ≠ 0 then
    let key := s.key &&& (0xFF ^^^ key_clr)
    if key = 0 ∧ s.state ≠ EG_OFF then
      { s with key := key, state := EG_RELEASE }
    else
      { s with key := key }
  else s

/-- Envelope generator step, `YMF262Slot::advanceEnvelopeGenerator`. -/
def advanceEnvelopeGenerator (eg_cnt : Nat) (s : Slot) : Slot :=
  match s.state with
  | EG_ATTACK =>
    if eg_cnt &&& s.eg_m_ar = 0 then
      let volume := s.volume +
        sar (cNot s.volume * egIncAt (s.eg_sel_ar + ((eg_cnt >>> s.eg_sh_ar) &&& 7))) 3
      if volume ≤ MIN_ATT_INDEX then
        { s with volume := MIN_ATT_INDEX, state := EG_DECAY }
      else
        { s with volume := volume }
    else s
  | EG_DECAY =>
    if eg_cnt &&& s.eg_m_dr = 0 then
      let volume := s.volume + egIncAt (s.eg_sel_dr + ((eg_cnt >>> s.eg_sh_dr) &&& 7))
      if volume ≥ s.sl then
        { s with volume := volume, state := EG_SUSTAIN }
      else
        { s with volume := volume }
    else s
  | EG_SUSTAIN =>
    if s.eg_type then
      s
    else
      if eg_cnt &&& s.eg_m_rr = 0 then
        let volume := s.volume + egIncAt (s.eg_sel_rr + ((eg_cnt >>> s.eg_sh_rr) &&& 7))
        if volume ≥ MAX_ATT_INDEX then
          { s with volume := MAX_ATT_INDEX }
        else
          { s with volume := volume }
      else s
  | EG_RELEASE =>
    if eg_cnt &&& s.eg_m_rr = 0 then
      let volume := s.volume + egIncAt (s.eg_sel_rr + ((eg_cnt >>> s.eg_sh_rr) &&& 7))
      if volume ≥ MAX_ATT_INDEX then
        { s with volume := MAX_ATT_INDEX, state := EG_OFF }
      else
        { s with volume := volume }
    else s
  | EG_OFF => s

/-- One channel, `class YMF262Channel`: two slots plus channel-wide
frequency data; `slot1`/`slot2` are `slots[SLOT1]`/`slots[SLOT2]`. -/
structure Channel where
  slot1 : Slot
  slot2 : Slot
  block_fnum : Nat
  fc : Nat
  ksl_base : Nat
  kcode : Nat
  extended : Bool
deriving DecidableEq, Repr

/-- The default-constructed channel, `YMF262Channel::YMF262Channel()`. -/
def Channel.initial : Channel where
  slot1 := Slot.initial
  slot2 := Slot.initial
  block_fnum := 0
  fc := 0
  ksl_base := 0
  kcode := 0
  extended := false

/-- Read `slots[k]` of a channel (`k` is 0 or 1). -/
def Channel.slotAt (ch : Channel) (k : Nat) : Slot :=
  if k = 0 then ch.slot1 else ch.slot2

/-- Write `slots[k]` of a channel (`k` is 0 or 1). -/
def Channel.setSlot (ch : Channel) (k : Nat) (s : Slot) : Channel :=
  if k = 0 then { ch with slot1 := s } else { ch with slot2 := s }

/-- Update one slot's phase increment and envelope rate caches,
`YMF262Channel::CALC_FCSLOT`: the channel supplies `fc` and `kcode`,
the returned slot replaces the argument slot. -/
def CALC_FCSLOT (ch : Channel) (slot : Slot) : Slot :=
  let slot := { slot with Incr := ch.fc * slot.mul }
  let ksr := ch.kcode >>> slot.KSR
  if slot.ksr = ksr then slot
  else
    let slot := { slot with ksr := ksr }
    let slot :=
      if slot.ar + slot.ksr < 16 + 60 then
        { slot with
          eg_sh_ar := eg_rate_shift.getD (slot.ar + slot.ksr) 0,
          eg_sel_ar := eg_rate_select.getD (slot.ar + slot.ksr) 0 }
      else
        { slot with eg_sh_ar := 0, eg_sel_ar := 13 * RATE_STEPS }
    { slot with
      eg_m_ar := (1 <<< slot.eg_sh_ar) - 1,
      eg_sh_dr := eg_rate_shift.getD (slot.dr + slot.ksr) 0,
      eg_m_dr := (1 <<< eg_rate_shift.getD (slot.dr + slot.ksr) 0) - 1,
      eg_sel_dr := eg_rate_select.getD (slot.dr + slot.ksr) 0,
      eg_sh_rr := eg_rate_shift.getD (slot.rr + slot.ksr) 0,
      eg_m_rr := (1 <<< eg_rate_shift.getD (slot.rr + slot.ksr) 0) - 1,
      eg_sel_rr := eg_rate_select.getD (slot.rr + slot.ksr) 0 }

/-- The chip, `class YMF262Impl`: register file, 18 channels, pan masks and
global counters/flags.  Timers and the IRQ line are external collaborators;
only the data the chip pushes to them (reload values, start flags, IRQ
level) is kept.  `reg`, `channels` and `pan` are total maps indexed by
`Nat`; the code only ever uses indices below 512, 18 and 72. -/
structure Chip where
  reg : Nat → Nat
  channels : Nat → Channel
  pan : Nat → Nat
  eg_cnt : Nat
  noise_rng : Nat
  lfo_am_cnt : Nat
  lfo_pm_cnt : Nat
  LFO_AM : Nat
  LFO_PM : Nat
  lfo_am_depth : Bool
  lfo_pm_depth_range : Nat
  rhythm : Nat
  nts : Bool
  OPL3_mode : Bool
  status : Nat
  status2 : Nat
  statusMask : Nat
  timer1_value : Nat
  timer2_value : Nat
  timer1_start : Bool
  timer2_start : Bool
  irq : Bool

/-- Replace channel `n`. -/
def setCh (c : Chip) (n : Nat) (ch : Channel) : Chip :=
  { c with channels := Function.update c.channels n ch }

/-- Apply `f` to slot `k` of channel `n`. -/
def modSlot (c : Chip) (n k : Nat) (f : Slot → Slot) : Chip :=
  let ch := c.channels n
  setCh c n (ch.setSlot k (f (ch.slotAt k)))

/-- Set one pan mask entry. -/
def setPan (c : Chip) (i m : Nat) : Chip :=
  { c with pan := Function.update c.pan i m }

/-- Status set and IRQ handling, `YMF262Impl::setStatus`. -/
def setStatus (flag : Nat) (c : Chip) : Chip :=
  let status := c.status ||| flag
  if status &&& c.statusMask ≠ 0 then
    { c with status := status ||| 0x80, irq := true }
  else
    { c with status := status }

/-- Status reset and IRQ handling, `YMF262Impl::resetStatus`. -/
def resetStatus (flag : Nat) (c : Chip) : Chip :=
  let status := c.status &&& (0xFF ^^^ flag)
  if status &&& c.statusMask = 0 then
    { c with status := status &&& 0x7F, irq := false }
  else
    { c with status := status }

/-- IRQ mask update, `YMF262Impl::changeStatusMask`. -/
def changeStatusMask (flag : Nat) (c : Chip) : Chip :=
  let status := c.status &&& flag
  if status ≠ 0 then
    { c with statusMask := flag, status := status ||| 0x80, irq := true }
  else
    { c with statusMask := flag, status := status &&& 0x7F, irq := false }

/-- Channel-pair fusion bookkeeping, `YMF262Impl::update_channels`: the
body of the source function contains only comments. -/
def update_channels (c : Chip) : Chip := c

/-- Register 0x104 helper: set one channel's `extended` flag from bit
`bit` of the written value. -/
def chanEnable (n bit v : Nat) (c : Chip) : Chip :=
  let ch := c.channels n
  let prev := ch.extended
  let ext := (v >>> bit) &&& 1 = 1
  let c := setCh c n { ch with extended := ext }
  if prev ≠ ext then update_channels c else c

/-- Writes 0x20-0x35: multiple, key-scale-rate, envelope type, vibrato and
AM flags, `YMF262Impl::set_mul`.  In OPL3 mode the second channel of a
fused pair takes its frequency data from the first channel of the pair. -/
def set_mul (sl v : Nat) (c : Chip) : Chip :=
  let chan_no := sl / 2
  let ch := c.channels chan_no
  let slot := ch.slotAt (sl &&& 1)
  let slot := { slot with
    mul := mul_tab.getD (v &&& 0x0F) 0,
    KSR := if v &&& 0x10 ≠ 0 then 0 else 2,
    eg_type := v &&& 0x20 ≠ 0,
    vib := v &&& 0x40 ≠ 0,
    AMmask := if v &&& 0x80 ≠ 0 then 0xFF else 0 }
  let slot :=
    if c.OPL3_mode then
      match chan_no with
      | 0 | 1 | 2 | 9 | 10 | 11 =>
        if ch.extended then CALC_FCSLOT ch slot else CALC_FCSLOT ch slot
      | 3 | 4 | 5 | 12 | 13 | 14 =>
        let ch3 := c.channels (chan_no - 3)
        if ch3.extended then CALC_FCSLOT ch3 slot else CALC_FCSLOT ch slot
      | _ => CALC_FCSLOT ch slot
    else CALC_FCSLOT ch slot
  setCh c chan_no (ch.setSlot (sl &&& 1) slot)

/-- Writes 0x40-0x55: key-scale level and total level,
`YMF262Impl::set_ksl_tl`. -/
def set_ksl_tl (sl v : Nat) (c : Chip) : Chip :=
  let chan_no := sl / 2
  let ch := c.channels chan_no
  let slot := ch.slotAt (sl &&& 1)
  let ksl := v >>> 6
  let slot := { slot with
    ksl := if ksl ≠ 0 then 3 - ksl else 31,
    TL := (v &&& 0x3F) <<< (ENV_BITS - 1 - 7) }
  let base :=
    if c.OPL3_mode then
      match chan_no with
      | 0 | 1 | 2 | 9 | 10 | 11 => ch.ksl_base
      | 3 | 4 | 5 | 12 | 13 | 14 =>
        let ch3 := c.channels (chan_no - 3)
        if ch3.extended then ch3.ksl_base else ch.ksl_base
      | _ => ch.ksl_base
    else ch.ksl_base
  let slot := { slot with TLL := (slot.TL : Int) + ((base >>> slot.ksl : Nat) : Int) }
  setCh c chan_no (ch.setSlot (sl &&& 1) slot)

/-- Writes 0x60-0x75: attack and decay rate, `YMF262Impl::set_ar_dr`. -/
def set_ar_dr (sl v : Nat) (c : Chip) : Chip :=
  let chan_no := sl / 2
  let ch := c.channels chan_no
  let slot := ch.slotAt (sl &&& 1)
  let slot := { slot with ar := if v >>> 4 ≠ 0 then 16 + ((v >>> 4) <<< 2) else 0 }
  let slot :=
    if slot.ar + slot.ksr < 16 + 60 then
      { slot with
        eg_sh_ar := eg_rate_shift.getD (slot.ar + slot.ksr) 0,
        eg_sel_ar := eg_rate_select.getD (slot.ar + slot.ksr) 0 }
    else
      { slot with eg_sh_ar := 0, eg_sel_ar := 13 * RATE_STEPS }
  let slot := { slot with
    eg_m_ar := (1 <<< slot.eg_sh_ar) - 1,
    dr := if v &&& 0x0F ≠ 0 then 16 + ((v &&& 0x0F) <<< 2) else 0 }
  let slot := { slot with eg_sh_dr := eg_rate_shift.getD (slot.dr + slot.ksr) 0 }
  let slot := { slot with
    eg_m_dr := (1 <<< slot.eg_sh_dr) - 1,
    eg_sel_dr := eg_rate_select.getD (slot.dr + slot.ksr) 0 }
  setCh c chan_no (ch.setSlot (sl &&& 1) slot)

/-- Writes 0x80-0x95: sustain level and release rate,
`YMF262Impl::set_sl_rr`. -/
def set_sl_rr (sl v : Nat) (c : Chip) : Chip :=
  let chan_no := sl / 2
  let ch := c.channels chan_no
  let slot := ch.slotAt (sl &&& 1)
  let slot := { slot with
    sl := sl_tab.getD (v >>> 4) 0,
    rr := if v &&& 0x0F ≠ 0 then 16 + ((v &&& 0x0F) <<< 2) else 0 }
  let slot := { slot with eg_sh_rr := eg_rate_shift.getD (slot.rr + slot.ksr) 0 }
  let slot := { slot with
    eg_m_rr := (1 <<< slot.eg_sh_rr) - 1,
    eg_sel_rr := eg_rate_select.getD (slot.rr + slot.ksr) 0 }
  setCh c chan_no (ch.setSlot (sl &&& 1) slot)

/-- Two-operator connect wiring, shared by all plain-channel cases of the
0xC0 handler. -/
def connectTwoOp (chan_no : Nat) (c : Chip) : Chip :=
  let ch := c.channels chan_no
  setCh c chan_no { ch with
    slot1 := { ch.slot1 with
      connect := if ch.slot1.CON then Conn.chan chan_no else Conn.phaseMod },
    slot2 := { ch.slot2 with connect := Conn.chan chan_no } }

/-- Four-operator connect wiring used by the 0xC0 handler when the pair
`(first, first + 3)` is fused; `sel` is `(CON1 << 1) | CON2` for the pair's
two first-slot connection bits. -/
def connectFourOp (first : Nat) (c : Chip) : Chip :=
  let chA := c.channels first
  let chB := c.channels (first + 3)
  let sel := (cond chA.slot1.CON 1 0) * 2 + (cond chB.slot1.CON 1 0)
  let conns : Conn × Conn × Conn × Conn :=
    match sel with
    | 0 => (Conn.phaseMod, Conn.phaseMod2, Conn.phaseMod, Conn.chan (first + 3))
    | 1 => (Conn.phaseMod, Conn.chan first, Conn.phaseMod, Conn.chan (first + 3))
    | 2 => (Conn.chan first, Conn.phaseMod2, Conn.phaseMod, Conn.chan (first + 3))
    | _ => (Conn.chan first, Conn.phaseMod2, Conn.chan (first + 3), Conn.chan (first + 3))
  let c := setCh c first { chA with
    slot1 := { chA.slot1 with connect := conns.1 },
    slot2 := { chA.slot2 with connect := conns.2.1 } }
  let chB := c.channels (first + 3)
  setCh c (first + 3) { chB with
    slot1 := { chB.slot1 with connect := conns.2.2.1 },
    slot2 := { chB.slot2 with connect := conns.2.2.2 } }

/-- Register 0xC0-0xC8 handler body (pan, feedback, connection),
`case 0xC0` of `YMF262Impl::writeRegForce`. -/
def writeRegC0 (r ch_offset v : Nat) (c : Chip) : Chip :=
  if r &&& 0x0F > 8 then c
  else
    let chan_no := (r &&& 0x0F) + ch_offset
    let base := chan_no * 4
    let c :=
      if c.OPL3_mode then
        let c := setPan c (base + 0) (if v &&& 0x10 ≠ 0 then 0xFFFFFFFF else 0)
        let c := setPan c (base + 1) (if v &&& 0x20 ≠ 0 then 0xFFFFFFFF else 0)
        let c := setPan c (base + 2) (if v &&& 0x40 ≠ 0 then 0xFFFFFFFF else 0)
        setPan c (base + 3) (if v &&& 0x80 ≠ 0 then 0xFFFFFFFF else 0)
      else
        let c := setPan c (base + 0) 0xFFFFFFFF
        let c := setPan c (base + 1) 0xFFFFFFFF
        let c := setPan c (base + 2) 0xFFFFFFFF
        setPan c (base + 3) 0xFFFFFFFF
    let c := modSlot c chan_no 0 (fun s => { s with
      fb_shift := if (v >>> 1) &&& 7 ≠ 0 then 9 - ((v >>> 1) &&& 7) else 0,
      CON := v &&& 1 ≠ 0 })
    if c.OPL3_mode then
      match chan_no with
      | 0 | 1 | 2 | 9 | 10 | 11 =>
        if (c.channels chan_no).extended then connectFourOp chan_no c
        else connectTwoOp chan_no c
      | 3 | 4 | 5 | 12 | 13 | 14 =>
        if (c.channels (chan_no - 3)).extended then connectFourOp (chan_no - 3) c
        else connectTwoOp chan_no c
      | _ => connectTwoOp chan_no c
    else connectTwoOp chan_no c

/-- Key-on/off fan-out of a 0xB0-0xB8 write, four-operator aware. -/
def keyOnOffB0 (chan_no v : Nat) (c : Chip) : Chip :=
  let f : Slot → Slot := if v &&& 0x20 ≠ 0 then FM_KEYON 1 else FM_KEYOFF 1
  let two : Chip → Chip := fun c => modSlot (modSlot c chan_no 0 f) chan_no 1 f
  if c.OPL3_mode then
    match chan_no with
    | 0 | 1 | 2 | 9 | 10 | 11 =>
      if (c.channels chan_no).extended then
        let c := two c
        modSlot (modSlot c (chan_no + 3) 0 f) (chan_no + 3) 1 f
      else two c
    | 3 | 4 | 5 | 12 | 13 | 14 =>
      if (c.channels (chan_no - 3)).extended then c else two c
    | _ => two c
  else two c

/-- Refresh total level and frequency caches of a channel's own two slots
after a `block_fnum` change. -/
def refreshChannel2 (ch : Channel) : Channel :=
  let s1 := { ch.slot1 with
    TLL := (ch.slot1.TL : Int) + ((ch.ksl_base >>> ch.slot1.ksl : Nat) : Int) }
  let s2 := { ch.slot2 with
    TLL := (ch.slot2.TL : Int) + ((ch.ksl_base >>> ch.slot2.ksl : Nat) : Int) }
  { ch with slot1 := CALC_FCSLOT ch s1, slot2 := CALC_FCSLOT ch s2 }

/-- Post-`block_fnum`-change refresh of a 0xA0-0xB8 write, four-operator
aware: a fused pair refreshes all four slots from the first channel's data,
the second half of a fused pair refreshes nothing. -/
def refreshFreq (chan_no : Nat) (c : Chip) : Chip :=
  if c.OPL3_mode then
    match chan_no with
    | 0 | 1 | 2 | 9 | 10 | 11 =>
      let ch := c.channels chan_no
      if ch.extended then
        let ch3 := c.channels (chan_no + 3)
        let t1 := { ch3.slot1 with
          TLL := (ch3.slot1.TL : Int) + ((ch.ksl_base >>> ch3.slot1.ksl : Nat) : Int) }
        let t2 := { ch3.slot2 with
          TLL := (ch3.slot2.TL : Int) + ((ch.ksl_base >>> ch3.slot2.ksl : Nat) : Int) }
        let c := setCh c chan_no (refreshChannel2 ch)
        setCh c (chan_no + 3)
          { ch3 with slot1 := CALC_FCSLOT ch t1, slot2 := CALC_FCSLOT ch t2 }
      else setCh c chan_no (refreshChannel2 ch)
    | 3 | 4 | 5 | 12 | 13 | 14 =>
      if (c.channels (chan_no - 3)).extended then c
      else setCh c chan_no (refreshChannel2 (c.channels chan_no))
    | _ => setCh c chan_no (refreshChannel2 (c.channels chan_no))
  else setCh c chan_no (refreshChannel2 (c.channels chan_no))

/-- Register 0xA0-0xBF handler body (rhythm register 0xBD, frequency low
and high bytes, key-on/off), `case 0xA0` of `YMF262Impl::writeRegForce`. -/
def writeRegA0 (r ch_offset v : Nat) (c : Chip) : Chip :=
  if r = 0xBD then
    if ch_offset ≠ 0 then c
    else
      let c := { c with
        lfo_am_depth := v &&& 0x80 ≠ 0,
        lfo_pm_depth_range := if v &&& 0x40 ≠ 0 then 8 else 0,
        rhythm := v &&& 0x3F }
      if c.rhythm &&& 0x20 ≠ 0 then
        let c := modSlot c 6 0 (if v &&& 0x10 ≠ 0 then FM_KEYON 2 else FM_KEYOFF 2)
        let c := modSlot c 6 1 (if v &&& 0x10 ≠ 0 then FM_KEYON 2 else FM_KEYOFF 2)
        let c := modSlot c 7 0 (if v &&& 0x01 ≠ 0 then FM_KEYON 2 else FM_KEYOFF 2)
        let c := modSlot c 7 1 (if v &&& 0x08 ≠ 0 then FM_KEYON 2 else FM_KEYOFF 2)
        let c := modSlot c 8 0 (if v &&& 0x04 ≠ 0 then FM_KEYON 2 else FM_KEYOFF 2)
        modSlot c 8 1 (if v &&& 0x02 ≠ 0 then FM_KEYON 2 else FM_KEYOFF 2)
      else
        let c := modSlot c 6 0 (FM_KEYOFF 2)
        let c := modSlot c 6 1 (FM_KEYOFF 2)
        let c := modSlot c 7 0 (FM_KEYOFF 2)
        let c := modSlot c 7 1 (FM_KEYOFF 2)
        let c := modSlot c 8 0 (FM_KEYOFF 2)
        modSlot c 8 1 (FM_KEYOFF 2)
  else if r &&& 0x0F > 8 then c
  else
    let chan_no := (r &&& 0x0F) + ch_offset
    let block_fnum :=
      if r &&& 0x10 = 0 then
        ((c.channels chan_no).block_fnum &&& 0x1F00) ||| v
      else
        ((v &&& 0x1F) <<< 8) ||| ((c.channels chan_no).block_fnum &&& 0xFF)
    let c := if r &&& 0x10 ≠ 0 then keyOnOffB0 chan_no v c else c
    if (c.channels chan_no).block_fnum ≠ block_fnum then
      let ch := c.channels chan_no
      let kcode := (block_fnum &&& 0x1C00) >>> 9
      let kcode :=
        if c.nts then kcode ||| ((block_fnum &&& 0x100) >>> 8)
        else kcode ||| ((block_fnum &&& 0x200) >>> 9)
      let c := setCh c chan_no { ch with
        block_fnum := block_fnum,
        ksl_base := ksl_tab.getD (block_fnum >>> 6) 0,
        fc := fnumToIncrement block_fnum,
        kcode := kcode }
      refreshFreq chan_no c
    else c

/-- The main register-class switch of `YMF262Impl::writeRegForce`, applied
after the page-2 prefix handling; `r` is the low byte, `ch_offset` is 0 for
page 1 and 9 for page 2. -/
def writeRegSwitch (r ch_offset v : Nat) (c : Chip) : Chip :=
  match r &&& 0xE0 with
  | 0x00 =>
    match r &&& 0x1F with
    | 0x01 => c
    | 0x02 => { c with timer1_value := v }
    | 0x03 => { c with timer2_value := v }
    | 0x04 =>
      if v &&& 0x80 ≠ 0 then resetStatus 0x60 c
      else
        let c := changeStatusMask ((0xFF ^^^ v) &&& 0x60) c
        { c with timer1_start := v &&& 0x01 ≠ 0, timer2_start := v &&& 0x02 ≠ 0 }
    | 0x08 => { c with nts := v &&& 0x40 ≠ 0 }
    | _ => c
  | 0x20 =>
    match slot_array.getD (r &&& 0x1F) none with
    | none => c
    | some slot => set_mul (slot + ch_offset * 2) v c
  | 0x40 =>
    match slot_array.getD (r &&& 0x1F) none with
    | none => c
    | some slot => set_ksl_tl (slot + ch_offset * 2) v c
  | 0x60 =>
    match slot_array.getD (r &&& 0x1F) none with
    | none => c
    | some slot => set_ar_dr (slot + ch_offset * 2) v c
  | 0x80 =>
    match slot_array.getD (r &&& 0x1F) none with
    | none => c
    | some slot => set_sl_rr (slot + ch_offset * 2) v c
  | 0xA0 => writeRegA0 r ch_offset v c
  | 0xC0 => writeRegC0 r ch_offset v c
  | 0xE0 =>
    match slot_array.getD (r &&& 0x1F) none with
    | none => c
    | some slot =>
      let slot := slot + ch_offset * 2
      let chan_no := slot / 2
      let ch := c.channels chan_no
      let v := v &&& 7
      let s := ch.slotAt (slot &&& 1)
      let s := { s with waveform_number := v }
      let s := { s with wavetable := if !c.OPL3_mode then v &&& 3 else v }
      setCh c chan_no (ch.setSlot (slot &&& 1) s)
  | _ => c

/-- Unconditional register write, `YMF262Impl::writeRegForce`: stores the
byte in the register file, handles the page-2-only registers 0x101, 0x104
and 0x105, and otherwise decodes the low byte with the page's channel
offset. -/
def writeRegForce (r v : Nat) (c : Chip) : Chip :=
  let c := { c with reg := Function.update c.reg r v }
  if r &&& 0x100 ≠ 0 then
    if r = 0x101 then c
    else if r = 0x104 then
      let c := chanEnable 0 0 v c
      let c := chanEnable 1 1 v c
      let c := chanEnable 2 2 v c
      let c := chanEnable 9 3 v c
      let c := chanEnable 10 4 v c
      chanEnable 11 5 v c
    else if r = 0x105 then
      let c := { c with OPL3_mode := v &&& 0x01 ≠ 0 }
      if c.OPL3_mode then { c with status2 := 0x02 } else c
    else writeRegSwitch (r &&& 0xFF) 9 v c
  else writeRegSwitch r 0 v c

/-- Guarded register write, `YMF262Impl::writeReg`: while extended (OPL3)
mode is off, every address other than 0x105 has bit 8 stripped, so page 2
decodes as page 1; `r &= ~0x100` on a 32-bit `int` is `r &&& 0xFFFFFEFF`. -/
def writeReg (r v : Nat) (c : Chip) : Chip :=
  if !c.OPL3_mode ∧ r ≠ 0x105 then writeRegForce (r &&& 0xFFFFFEFF) v c
  else writeRegForce r v c

/-- Side-effect-free register-file read, `YMF262Impl::peekReg`. -/
def peekReg (r : Nat) (c : Chip) : Nat := c.reg r

/-- Register-file read, `YMF262Impl::readReg`; it only calls `peekReg`. -/
def readReg (r : Nat) (c : Chip) : Nat := peekReg r c

/-- Status read, `YMF262Impl::readStatus`: returns `status | status2` and
clears `status2`. -/
def readStatus (c : Chip) : Nat × Chip :=
  (c.status ||| c.status2, { c with status2 := 0 })

/-- Non-clearing status read, `YMF262Impl::peekStatus`. -/
def peekStatus (c : Chip) : Nat := c.status ||| c.status2

/-- Descending register-write loop of `YMF262Impl::reset`: writes value 0
to registers `lo + n - 1`, `lo + n - 2`, ..., `lo`. -/
def wrSeq (lo : Nat) : Nat → Chip → Chip
  | 0, c => c
  | n + 1, c => wrSeq lo n (writeRegForce (lo + n) 0 c)

/-- Final loop of `YMF262Impl::reset`: force state OFF and maximum
attenuation on both slots of channels `0..n-1`. -/
def forceOff : Nat → Chip → Chip
  | 0, c => c
  | n + 1, c =>
    let c := forceOff n c
    let c := modSlot c n 0 (fun s => { s with state := EG_OFF, volume := MAX_ATT_INDEX })
    modSlot c n 1 (fun s => { s with state := EG_OFF, volume := MAX_ATT_INDEX })

/-- Full reset sequence, `YMF262Impl::reset`: clears the envelope counter,
noise register and note-select, clears timer status, then re-drives
registers 0x01-0x04, 0xFF down to 0x20 and 0x1FF down to 0x120 through the
normal decode path, and finally forces every operator to OFF at maximum
attenuation. -/
def reset (c : Chip) : Chip :=
  let c := { c with eg_cnt := 0, noise_rng := 1, nts := false }
  let c := resetStatus 0x60 c
  let c := writeRegForce 0x01 0 c
  let c := writeRegForce 0x02 0 c
  let c := writeRegForce 0x03 0 c
  let c := writeRegForce 0x04 0 c
  let c := wrSeq 0x20 0xE0 c
  let c := wrSeq 0x120 0xE0 c
  forceOff 18 c

/-- A concrete all-zero chip used as a witness input for theorems with
hypotheses; it corresponds to the freshly constructed member state before
`reset` runs. -/
def Chip.initial : Chip where
  reg := fun _ => 0
  channels := fun _ => Channel.initial
  pan := fun _ => 0
  eg_cnt := 0
  noise_rng := 0
  lfo_am_cnt := 0
  lfo_pm_cnt := 0
  LFO_AM := 0
  LFO_PM := 0
  lfo_am_depth := false
  lfo_pm_depth_range := 0
  rhythm := 0
  nts := false
  OPL3_mode := false
  status := 0
  status2 := 0
  statusMask := 0
  timer1_value := 0
  timer2_value := 0
  timer1_start := false
  timer2_start := false
  irq := false

/-- LFO advance, `YMF262Impl::advance_lfo`.  `lfo_am_cnt` is a 6-bit
fixed-point counter (`addQuantum` adds one raw unit) reset when it reaches
`LFO_AM_TAB_ELEMENTS`; `lfo_pm_cnt` is a 10-bit fixed-point counter
wrapping with its 32-bit storage. -/
def advance_lfo (c : Chip) : Chip :=
  let lfo_am_cnt := (c.lfo_am_cnt + 1) % 4294967296
  let lfo_am_cnt := if lfo_am_cnt = LFO_AM_TAB_ELEMENTS <<< 6 then 0 else lfo_am_cnt
  let tmp := lfo_am_table.getD (lfo_am_cnt >>> 6) 0
  let lfo_pm_cnt := (c.lfo_pm_cnt + 1) % 4294967296
  { c with
    lfo_am_cnt := lfo_am_cnt,
    LFO_AM := if c.lfo_am_depth then tmp else tmp / 4,
    lfo_pm_cnt := lfo_pm_cnt,
    LFO_PM := ((lfo_pm_cnt >>> 10) &&& 7) ||| c.lfo_pm_depth_range }

/-- Phase generator advance, `YMF262Slot::advancePhaseGenerator`; the
16.16 counter wraps with its 32-bit storage. -/
def advancePhaseGenerator (ch : Channel) (LFO_PM : Nat) (s : Slot) : Slot :=
  if s.vib then
    let block_fnum := ch.block_fnum
    let fnum_lfo := (block_fnum &&& 0x0380) >>> 7
    let off := lfo_pm_table.getD (LFO_PM + 16 * fnum_lfo) 0
    if off ≠ 0 then
      { s with Cnt :=
          (s.Cnt + fnumToIncrement ((block_fnum : Int) + off).toNat * s.mul) % 4294967296 }
    else
      { s with Cnt := (s.Cnt + s.Incr) % 4294967296 }
  else
    { s with Cnt := (s.Cnt + s.Incr) % 4294967296 }

/-- Envelope plus phase advance of one channel's two slots (the inner loop
body of `YMF262Impl::advance`). -/
def advanceChannel (eg_cnt LFO_PM : Nat) (ch : Channel) : Channel :=
  { ch with
    slot1 := advancePhaseGenerator ch LFO_PM (advanceEnvelopeGenerator eg_cnt ch.slot1),
    slot2 := advancePhaseGenerator ch LFO_PM (advanceEnvelopeGenerator eg_cnt ch.slot2) }

/-- The channel loop of `YMF262Impl::advance` over channels `0..n-1`. -/
def advanceAll : Nat → Chip → Chip
  | 0, c => c
  | n + 1, c =>
    let c := advanceAll n c
    setCh c n (advanceChannel c.eg_cnt c.LFO_PM (c.channels n))

/-- Per-sample state advance, `YMF262Impl::advance`: bump the envelope
counter, advance every operator, then step the 23-bit noise shift
register. -/
def advance (c : Chip) : Chip :=
  let c := { c with eg_cnt := c.eg_cnt + 1 }
  let c := advanceAll 18 c
  let noise := if c.noise_rng &&& 1 ≠ 0 then c.noise_rng ^^^ 0x800302 else c.noise_rng
  { c with noise_rng := noise >>> 1 }

/-- Operator output, `YMF262Slot::op_calc`.  The floating-point-initialized
tables `tl_tab` and `sin_tab` are abstract parameters (modelled from the
spec: `init_tables` builds them with `double` arithmetic); `sin_tab` holds
the eight waveforms consecutively.  The `(phase + pm) & SIN_MASK` index is
the wrapped sum of the unsigned phase and the signed modulation. -/
def op_calc (tl : Nat → Int) (sin : Nat → Nat) (phase : Nat) (pm : Int) (lfoAM : Nat)
    (s : Slot) : Int :=
  let env : Int := (s.TLL + s.volume + ((lfoAM &&& s.AMmask : Nat) : Int)) * 16
  let idx := (((phase : Int) + pm).emod 1024).toNat
  let p := env + (sin (s.wavetable * SIN_LEN + idx) : Int)
  if p < (TL_TAB_LEN : Int) then tl p.toNat else 0

/-- The per-sample accumulators: the `phase_modulation` and
`phase_modulation2` scratch values and the `chanout` array (cleared before
every sample and fully consumed within it, so modelled per sample). -/
structure SampleAcc where
  pm : Int
  pm2 : Int
  chanout : Nat → Int

/-- Add a slot output into its `connect` destination. -/
def SampleAcc.add (acc : SampleAcc) (t : Conn) (x : Int) : SampleAcc :=
  match t with
  | Conn.chan n => { acc with chanout := Function.update acc.chanout n (acc.chanout n + x) }
  | Conn.phaseMod => { acc with pm := acc.pm + x }
  | Conn.phaseMod2 => { acc with pm2 := acc.pm2 + x }

def emptyAcc : SampleAcc where
  pm := 0
  pm2 := 0
  chanout := fun _ => 0

/-- Two-operator channel evaluation, `YMF262Channel::chan_calc`: clear the
modulation scratch values, shift the slot-1 feedback history and emit both
slots into their `connect` destinations. -/
def chan_calc (tl : Nat → Int) (sin : Nat → Nat) (lfoAM : Nat) (ch : Channel)
    (acc : SampleAcc) : Channel × SampleAcc :=
  let acc := { acc with pm := 0, pm2 := 0 }
  let s1 := ch.slot1
  let out0 := s1.op1_out1
  let out := if s1.fb_shift ≠ 0 then out0 + s1.op1_out1 else 0
  let s1 := { s1 with
    op1_out0 := out0,
    op1_out1 := op_calc tl sin (s1.Cnt >>> 16) (sar out s1.fb_shift) lfoAM s1 }
  let acc := acc.add s1.connect s1.op1_out1
  let acc := acc.add ch.slot2.connect
    (op_calc tl sin (ch.slot2.Cnt >>> 16) acc.pm lfoAM ch.slot2)
  ({ ch with slot1 := s1 }, acc)

/-- Second half of a four-operator channel, `YMF262Channel::chan_calc_ext`:
clears `phase_modulation`, feeds slot 1 from `phase_modulation2`, and does
not touch the feedback history. -/
def chan_calc_ext (tl : Nat → Int) (sin : Nat → Nat) (lfoAM : Nat) (ch : Channel)
    (acc : SampleAcc) : SampleAcc :=
  let acc := { acc with pm := 0 }
  let acc := acc.add ch.slot1.connect
    (op_calc tl sin (ch.slot1.Cnt >>> 16) acc.pm2 lfoAM ch.slot1)
  acc.add ch.slot2.connect (op_calc tl sin (ch.slot2.Cnt >>> 16) acc.pm lfoAM ch.slot2)

/-- High-hat phase, `YMF262Impl::genPhaseHighHat`. -/
def genPhaseHighHat (c : Chip) : Nat :=
  let op71phase := (c.channels 7).slot1.Cnt >>> 16
  let bit7 := op71phase &&& 0x80 ≠ 0
  let bit3 := op71phase &&& 0x08 ≠ 0
  let bit2 := op71phase &&& 0x04 ≠ 0
  let res1 := xor bit2 bit7 ∨ bit3
  let phase := if res1 then 0x200 ||| (0xD0 >>> 2) else 0xD0
  let op82phase := (c.channels 8).slot2.Cnt >>> 16
  let bit5e := op82phase &&& 0x20 ≠ 0
  let bit3e := op82phase &&& 0x08 ≠ 0
  let phase := if xor bit3e bit5e then 0x200 ||| (0xD0 >>> 2) else phase
  if phase &&& 0x200 ≠ 0 then
    if c.noise_rng &&& 1 ≠ 0 then 0x200 ||| 0xD0 else phase
  else
    if c.noise_rng &&& 1 ≠ 0 then 0xD0 >>> 2 else phase

/-- Snare drum phase, `YMF262Impl::genPhaseSnare`. -/
def genPhaseSnare (c : Chip) : Nat :=
  ((((c.channels 7).slot1.Cnt >>> 16) &&& 0x100) + 0x100) ^^^ ((c.noise_rng &&& 1) <<< 8)

/-- Top cymbal phase, `YMF262Impl::genPhaseCymbal` (the XOR-based gate). -/
def genPhaseCymbal (c : Chip) : Nat :=
  let op82phase := (c.channels 8).slot2.Cnt >>> 16
  if (op82phase ^^^ (op82phase <<< 2)) &&& 0x20 ≠ 0 then 0x300
  else
    let op71phase := (c.channels 7).slot1.Cnt >>> 16
    let bit7 := op71phase &&& 0x80 ≠ 0
    let bit3 := op71phase &&& 0x08 ≠ 0
    let bit2 := op71phase &&& 0x04 ≠ 0
    if xor bit2 bit7 ∨ bit3 then 0x300 else 0x100

/-- Rhythm-mode evaluation of channels 6-8,
`YMF262Impl::chan_calc_rhythm`: every percussion output is scaled by 2. -/
def chan_calc_rhythm (tl : Nat → Int) (sin : Nat → Nat) (c : Chip)
    (acc : SampleAcc) : Chip × SampleAcc :=
  let S61 := (c.channels 6).slot1
  let S62 := (c.channels 6).slot2
  let S71 := (c.channels 7).slot1
  let S72 := (c.channels 7).slot2
  let S81 := (c.channels 8).slot1
  let S82 := (c.channels 8).slot2
  let out0 := S61.op1_out1
  let pm : Int := if !S61.CON then out0 else 0
  let out := if S61.fb_shift ≠ 0 then out0 + S61.op1_out1 else 0
  let S61 := { S61 with
    op1_out0 := out0,
    op1_out1 := op_calc tl sin (S61.Cnt >>> 16) (sar out S61.fb_shift) c.LFO_AM S61 }
  let acc := { acc with pm := pm }
  let acc := acc.add (Conn.chan 6)
    (op_calc tl sin (S62.Cnt >>> 16) acc.pm c.LFO_AM S62 * 2)
  let acc := acc.add (Conn.chan 7) (op_calc tl sin (genPhaseHighHat c) 0 c.LFO_AM S71 * 2)
  let acc := acc.add (Conn.chan 7) (op_calc tl sin (genPhaseSnare c) 0 c.LFO_AM S72 * 2)
  let acc := acc.add (Conn.chan 8) (op_calc tl sin (S81.Cnt >>> 16) 0 c.LFO_AM S81 * 2)
  let acc := acc.add (Conn.chan 8) (op_calc tl sin (genPhaseCymbal c) 0 c.LFO_AM S82 * 2)
  (modSlot c 6 0 (fun _ => S61), acc)

/-- Mute check, `YMF262Impl::checkMuteHelper`: every slot is OFF, or in
RELEASE with `TLL + volume` at or past the quiet threshold. -/
def checkMuteHelper (c : Chip) : Bool :=
  (List.range 18).all fun i =>
    decide ((c.channels i).slot1.state = EG_OFF ∨
        ((c.channels i).slot1.state = EG_RELEASE ∧
          (c.channels i).slot1.TLL + (c.channels i).slot1.volume ≥ ENV_QUIET)) &&
      decide ((c.channels i).slot2.state = EG_OFF ∨
        ((c.channels i).slot2.state = EG_RELEASE ∧
          (c.channels i).slot2.TLL + (c.channels i).slot2.volume ≥ ENV_QUIET))

/-- Output scaling, `YMF262Impl::adjust`: `x << 2` on an `int`. -/
def adjust (x : Int) : Int := x * 4

/-- Pan masking: each pan entry is `0` or the all-ones 32-bit mask, so
ANDing is either zero or the identity. -/
def panMask (m : Nat) (x : Int) : Int := if m ≠ 0 then x else 0

/-- One fusable channel pair of the per-sample loop: `chan_calc` on the
first channel, then `chan_calc_ext` or `chan_calc` on `first + 3`
depending on the fusion flag. -/
def calcPair (tl : Nat → Int) (sin : Nat → Nat) (first : Nat) (c : Chip)
    (acc : SampleAcc) : Chip × SampleAcc :=
  let r := chan_calc tl sin c.LFO_AM (c.channels first) acc
  let c := setCh c first r.1
  if (c.channels first).extended then
    (c, chan_calc_ext tl sin c.LFO_AM (c.channels (first + 3)) r.2)
  else
    let r3 := chan_calc tl sin c.LFO_AM (c.channels (first + 3)) r.2
    (setCh c (first + 3) r3.1, r3.2)

/-- One plain two-operator channel of the per-sample loop. -/
def calcOne (tl : Nat → Int) (sin : Nat → Nat) (i : Nat) (c : Chip)
    (acc : SampleAcc) : Chip × SampleAcc :=
  let r := chan_calc tl sin c.LFO_AM (c.channels i) acc
  (setCh c i r.1, r.2)

/-- One iteration of the sample loop in `YMF262Impl::generateChannels`:
advance the LFOs, clear `chanout`, evaluate all channels (with the rhythm
path on channels 6-8 when rhythm mode is on), form the pan-masked stereo
outputs, and advance phases/envelopes/noise. -/
def generateSample (tl : Nat → Int) (sin : Nat → Nat) (c : Chip) :
    Chip × (Nat → Int × Int) :=
  let c := advance_lfo c
  let acc := emptyAcc
  let r := calcPair tl sin 0 c acc
  let r := calcPair tl sin 1 r.1 r.2
  let r := calcPair tl sin 2 r.1 r.2
  let r :=
    if r.1.rhythm &&& 0x20 = 0 then
      let r6 := calcOne tl sin 6 r.1 r.2
      let r7 := calcOne tl sin 7 r6.1 r6.2
      calcOne tl sin 8 r7.1 r7.2
    else
      chan_calc_rhythm tl sin r.1 r.2
  let r := calcPair tl sin 9 r.1 r.2
  let r := calcPair tl sin 10 r.1 r.2
  let r := calcPair tl sin 11 r.1 r.2
  let r := calcOne tl sin 15 r.1 r.2
  let r := calcOne tl sin 16 r.1 r.2
  let r := calcOne tl sin 17 r.1 r.2
  let c2 := r.1
  let outs := fun i =>
    (adjust (panMask (c2.pan (4 * i)) (r.2.chanout i)),
     adjust (panMask (c2.pan (4 * i + 1)) (r.2.chanout i)))
  (advance c2, outs)

/-- The full per-sample evaluation path of `YMF262Impl::generateChannels`
run for `num` samples (the body of the `for` loop, without the mute
short-circuit). -/
def generateLoop (tl : Nat → Int) (sin : Nat → Nat) : Nat → Chip →
    List (Nat → Int × Int) × Chip
  | 0, c => ([], c)
  | num + 1, c =>
    let r := generateSample tl sin c
    let rest := generateLoop tl sin num r.1
    (r.2 :: rest.1, rest.2)

/-- Block generation, `YMF262Impl::generateChannels`: when every channel is
currently inaudible the buffers are nulled (`none`, which the mixer treats
as silence) and the loop body is skipped entirely, leaving the state
untouched. -/
def generateChannels (tl : Nat → Int) (sin : Nat → Nat) (num : Nat) (c : Chip) :
    Option (List (Nat → Int × Int)) × Chip :=
  if checkMuteHelper c then (none, c)
  else
    let r := generateLoop tl sin num c
    (some r.1, r.2)

/-- The chip right after reset: the canonical reachable all-muted state
(every operator OFF at maximum attenuation). -/
def chipMute : Chip := reset Chip.initial

/-- Witness chip for the rhythm-disable claim: the initial chip after a
rhythm-enable write that keys the bass drum. -/
def chipW3 : Chip := writeRegForce 0xBD 0x31 Chip.initial

/-- A sequence of envelope advances with the given envelope-counter values. -/
def advanceSeq (l : List Nat) (s : Slot) : Slot :=
  l.foldl (fun t n => advanceEnvelopeGenerator n t) s

/-- Position of a state along the order ATTACK, DECAY, SUSTAIN, RELEASE, OFF. -/
def stateRank : EnvelopeState → Nat
  | EG_ATTACK => 0
  | EG_DECAY => 1
  | EG_SUSTAIN => 2
  | EG_RELEASE => 3
  | EG_OFF => 4

/-- The three operations that can change an operator's envelope state. -/
inductive SlotOp where
  | adv (eg_cnt : Nat)
  | keyon (b : Nat)
  | keyoff (b : Nat)

/-- Apply a slot operation. -/
def applyOp : SlotOp → Slot → Slot
  | SlotOp.adv n => advanceEnvelopeGenerator n
  | SlotOp.keyon b => FM_KEYON b
  | SlotOp.keyoff b => FM_KEYOFF b

/-- Counterexample state for the volume-range claim: an operator in DECAY at
maximum attenuation with sustain level 0 and decay rate 15 (so
`eg_sel_dr = eg_rate_select[76] = 96`, `eg_sh_dr = eg_rate_shift[76] = 0`,
`eg_m_dr = 0`), exactly the values `set_sl_rr 0x00` and `set_ar_dr 0x0F`
program at `ksr = 0`. -/
def slotC1 : Slot :=
  { Slot.initial with
    state := EG_DECAY, volume := 511, sl := 0,
    dr := 76, eg_m_dr := 0, eg_sh_dr := 0, eg_sel_dr := 96 }

/-- Witness state for the amended volume-range claim. -/
def slotW1 : Slot :=
  { Slot.initial with
    state := EG_ATTACK, volume := 300, sl := 32,
    eg_sel_ar := 48, eg_sel_dr := 48, eg_sel_rr := 48 }

/-- Witness state for the attack-step claim. -/
def slotW5 : Slot :=
  { Slot.initial with
    state := EG_ATTACK, volume := 100, eg_sel_ar := 104 }

/-- A reachable slot state with `key = 0` in RELEASE: key-on then key-off
from the initial slot. -/
def slotC6 : Slot := FM_KEYOFF 1 (FM_KEYON 1 Slot.initial)

/-- Channel supplying frequency data (`fc`, `kcode`, `ksl_base`) to a
slot-parameter write: in OPL3 mode the second channel of a fused pair reads
the pair's first channel, mirroring the middle `match` of `set_mul`,
`set_ksl_tl` and their callers. -/
def pairSel (c : Chip) (n : Nat) : Channel :=
  if c.OPL3_mode then
    match n with
    | 3 | 4 | 5 | 12 | 13 | 14 =>
      if (c.channels (n - 3)).extended then c.channels (n - 3) else c.channels n
    | _ => c.channels n
  else c.channels n

/-- Envelope rate caches of a slot whose programmed rates `ar`, `dr` and
`rr` are all zero, as functions of its current `ksr`: the common shape
produced by `set_ar_dr 0`, `set_sl_rr 0` and a `CALC_FCSLOT` refresh. -/
def cachesOK (s : Slot) : Prop :=
  s.eg_sh_ar = (if s.ksr < 16 + 60 then eg_rate_shift.getD s.ksr 0 else 0) ∧
  s.eg_sel_ar = (if s.ksr < 16 + 60 then eg_rate_select.getD s.ksr 0 else 13 * RATE_STEPS) ∧
  s.eg_m_ar = (1 <<< s.eg_sh_ar) - 1 ∧
  s.eg_sh_dr = eg_rate_shift.getD s.ksr 0 ∧
  s.eg_m_dr = (1 <<< s.eg_sh_dr) - 1 ∧
  s.eg_sel_dr = eg_rate_select.getD s.ksr 0 ∧
  s.eg_sh_rr = eg_rate_shift.getD s.ksr 0 ∧
  s.eg_m_rr = (1 <<< s.eg_sh_rr) - 1 ∧
  s.eg_sel_rr = eg_rate_select.getD s.ksr 0

/-- Slot-level part of the post-reset invariant: the values the register
sweep of `reset` programs into every operator, relative to the frequency
source channel `p` (the slot's own channel, or the pair's first channel for
the second half of a fused pair). -/
def slotInvAt (p : Channel) (s : Slot) : Prop :=
  s.ar = 0 ∧ s.dr = 0 ∧ s.rr = 0 ∧ s.sl = 0 ∧
  s.TL = 0 ∧ s.ksl = 31 ∧
  s.TLL = (s.TL : Int) + ((p.ksl_base >>> s.ksl : Nat) : Int) ∧
  s.mul = mul_tab.getD 0 0 ∧ s.KSR = 2 ∧
  s.Incr = p.fc * s.mul ∧ s.ksr = p.kcode >>> s.KSR ∧
  cachesOK s ∧
  s.eg_type = false ∧ s.vib = false ∧ s.AMmask = 0 ∧
  s.waveform_number = 0 ∧ s.wavetable = 0 ∧
  s.state = EG_OFF ∧ s.volume = MAX_ATT_INDEX ∧
  s.key &&& 1 = 0 ∧ s.key < 256

/-- Connect target of a channel's second slot after reset: `PHASE_MOD2` for
the first channel of a fused OPL3 pair, the channel output otherwise. -/
def connTarget (c : Chip) (n : Nat) : Conn :=
  if c.OPL3_mode = true ∧ (n = 0 ∨ n = 1 ∨ n = 2 ∨ n = 9 ∨ n = 10 ∨ n = 11) ∧
      (c.channels n).extended = true
  then Conn.phaseMod2 else Conn.chan n

/-- Channel-level part of the post-reset invariant. -/
def chInv (c : Chip) (n : Nat) : Prop :=
  (c.channels n).block_fnum = 0 ∧
  (c.channels n).slot1.fb_shift = 0 ∧
  (c.channels n).slot1.CON = false ∧
  (c.channels n).slot1.connect = Conn.phaseMod ∧
  (c.channels n).slot2.connect = connTarget c n ∧
  slotInvAt (pairSel c n) (c.channels n).slot1 ∧
  slotInvAt (pairSel c n) (c.channels n).slot2 ∧
  (6 ≤ n ∧ n ≤ 8 →
    (c.channels n).slot1.key &&& 2 = 0 ∧ (c.channels n).slot2.key &&& 2 = 0)

/-- Register-file indices driven to zero by the reset sweep. -/
def regCovered (a : Nat) : Prop :=
  a = 1 ∨ a = 2 ∨ a = 3 ∨ a = 4 ∨ (0x20 ≤ a ∧ a < 0x100) ∨ (0x120 ≤ a ∧ a < 0x200)

/-- The full post-reset invariant: `reset` always produces a state
satisfying it, and every state satisfying it is a fixed point of `reset`. -/
def ResetInv (c : Chip) : Prop :=
  c.eg_cnt = 0 ∧ c.noise_rng = 1 ∧ c.nts = false ∧
  c.status = 0 ∧ c.irq = false ∧ c.statusMask = 0x60 ∧
  c.timer1_value = 0 ∧ c.timer2_value = 0 ∧
  c.timer1_start = false ∧ c.timer2_start = false ∧
  c.rhythm = 0 ∧ c.lfo_am_depth = false ∧ c.lfo_pm_depth_range = 0 ∧
  (∀ i, i < 72 → c.pan i = if c.OPL3_mode then 0 else 0xFFFFFFFF) ∧
  (∀ a, regCovered a → c.reg a = 0) ∧
  (∀ n, n < 18 → chInv c n)

attribute [ext] Slot

attribute [ext] Channel

attribute [ext] Chip

example : MAX_ATT_INDEX = 511 := by decide

example : (FM_KEYON 1 Slot.initial).state = EG_ATTACK := by decide

example : (advanceEnvelopeGenerator 0
    { Slot.initial with state := EG_ATTACK, volume := 511, eg_sel_ar := 104 }).volume = 0 := by
  decide

example : ((writeRegForce 0xBD 0 Chip.initial).channels 6).slot1.key = 0 := by decide

theorem egIncAt_nonneg (i : Nat) : 0 ≤ egIncAt i := by
  by_cases h : i < 120
  · exact (by decide : ∀ j, j < 120 → 0 ≤ egIncAt j) i h
  · unfold egIncAt Array.getD
    split
    · exact absurd (by simpa [eg_inc] using ‹i < eg_inc.size›) h
    · exact le_refl 0

theorem egIncAt_le_eight (i : Nat) : egIncAt i ≤ 8 := by
  by_cases h : i < 120
  · exact (by decide : ∀ j, j < 120 → egIncAt j ≤ 8) i h
  · unfold egIncAt Array.getD
    split
    · exact absurd (by simpa [eg_inc] using ‹i < eg_inc.size›) h
    · decide

theorem sar_nonpos (x : Int) (h : x ≤ 0) : sar x 3 ≤ 0 := by
  unfold sar
  cases x with
  | ofNat m =>
    have hm : (m : Int) ≤ 0 := h
    have hm0 : m = 0 := by omega
    subst hm0
    decide
  | negSucc m =>
    rw [Int.shiftRight_negSucc]
    exact (Int.negSucc_lt_zero _).le

/-- Single envelope advance preserves the volume range together with the
DECAY-below-sustain-level side condition, and never changes `sl`. -/
theorem advanceEG_inv (n : Nat) (s : Slot)
    (hsl0 : 0 ≤ s.sl) (hsl496 : s.sl ≤ 496)
    (h0 : 0 ≤ s.volume) (h1 : s.volume ≤ 511)
    (hd : s.state = EG_DECAY → s.volume ≤ s.sl) :
    0 ≤ (advanceEnvelopeGenerator n s).volume ∧
      (advanceEnvelopeGenerator n s).volume ≤ 511 ∧
      (advanceEnvelopeGenerator n s).sl = s.sl ∧
      ((advanceEnvelopeGenerator n s).state = EG_DECAY →
        (advanceEnvelopeGenerator n s).volume ≤ (advanceEnvelopeGenerator n s).sl) := by
  have hA0 := egIncAt_nonneg (s.eg_sel_ar + ((n >>> s.eg_sh_ar) &&& 7))
  have hD0 := egIncAt_nonneg (s.eg_sel_dr + ((n >>> s.eg_sh_dr) &&& 7))
  have hD8 := egIncAt_le_eight (s.eg_sel_dr + ((n >>> s.eg_sh_dr) &&& 7))
  have hR0 := egIncAt_nonneg (s.eg_sel_rr + ((n >>> s.eg_sh_rr) &&& 7))
  have hR8 := egIncAt_le_eight (s.eg_sel_rr + ((n >>> s.eg_sh_rr) &&& 7))
  have hprod : cNot s.volume * egIncAt (s.eg_sel_ar + ((n >>> s.eg_sh_ar) &&& 7)) ≤ 0 := by
    have hc : cNot s.volume ≤ 0 := by unfold cNot; omega
    exact mul_nonpos_iff.mpr (Or.inr ⟨hc, hA0⟩)
  have hsar := sar_nonpos _ hprod
  have hMIN : MIN_ATT_INDEX = 0 := by decide
  have hMAX : MAX_ATT_INDEX = 511 := by decide
  unfold advanceEnvelopeGenerator
  cases hstate : s.state
  case EG_ATTACK =>
    simp only [hstate, hMIN]
    split_ifs with ht hc
    · refine ⟨?_, ?_, rfl, fun _ => ?_⟩ <;> dsimp only <;> omega
    · refine ⟨?_, ?_, rfl, fun habs => by simp at habs⟩ <;> dsimp only <;> omega
    · exact ⟨h0, h1, by simp, fun habs => by simp [hstate] at habs⟩
  case EG_DECAY =>
    have hvs := hd hstate
    simp only [hstate]
    split_ifs with ht hsus
    · refine ⟨?_, ?_, rfl, fun habs => by simp at habs⟩ <;> dsimp only <;> omega
    · refine ⟨?_, ?_, rfl, fun _ => ?_⟩ <;> dsimp only <;> omega
    · exact ⟨h0, h1, by simp, fun _ => hvs⟩
  case EG_SUSTAIN =>
    simp only [hstate, hMAX]
    split_ifs with htype ht hm
    · exact ⟨h0, h1, by simp, fun habs => by simp [hstate] at habs⟩
    · refine ⟨?_, ?_, rfl, fun habs => by simp at habs⟩ <;> dsimp only <;> omega
    · refine ⟨?_, ?_, rfl, fun habs => by simp at habs⟩ <;> dsimp only <;> omega
    · exact ⟨h0, h1, by simp, fun habs => by simp [hstate] at habs⟩
  case EG_RELEASE =>
    simp only [hstate, hMAX]
    split_ifs with ht hm
    · refine ⟨?_, ?_, rfl, fun habs => by simp at habs⟩ <;> dsimp only <;> omega
    · refine ⟨?_, ?_, rfl, fun habs => by simp at habs⟩ <;> dsimp only <;> omega
    · exact ⟨h0, h1, by simp, fun habs => by simp [hstate] at habs⟩
  case EG_OFF =>
    simp only [hstate]
    exact ⟨h0, h1, by simp, fun habs => by simp [hstate] at habs⟩

/-- C1.  The claim as frozen is false: in DECAY state the increment is
added with no upper clamp, so a volume already at 511 with a sustain level
below it (decay rate 15, a programmable setting) steps to 515 before the
DECAY-to-SUSTAIN transition.  This closed theorem exhibits the overshoot at
the concrete state `slotC1`, whose rate fields are exactly what
`set_ar_dr`/`set_sl_rr` program. -/
theorem C1_volume_range_counterexample :
    0 ≤ slotC1.volume ∧ slotC1.volume ≤ MAX_ATT_INDEX ∧
      slotC1.sl = sl_tab.getD 0 0 ∧
      slotC1.eg_sel_dr = eg_rate_select.getD (slotC1.dr + slotC1.ksr) 0 ∧
      slotC1.eg_sh_dr = eg_rate_shift.getD (slotC1.dr + slotC1.ksr) 0 ∧
      slotC1.eg_m_dr = (1 <<< slotC1.eg_sh_dr) - 1 ∧
      (advanceEnvelopeGenerator 0 slotC1).volume = 515 ∧
      MAX_ATT_INDEX < (advanceEnvelopeGenerator 0 slotC1).volume := by
  decide

/-- C1 (amended).  For any sequence of envelope advances with any
envelope-counter values, the volume stays in `[0, MAX_ATT_INDEX]` provided
the starting state additionally satisfies the invariant that in DECAY the
volume is at most the sustain level (true of every state the envelope
generator itself produces, since DECAY is entered at volume 0 and left as
soon as the volume reaches `sl`), with `sl` in the programmable range
`[0, 496]` of `sl_tab`. -/
theorem C1_volume_range_amended (l : List Nat) (s : Slot)
    (hsl0 : 0 ≤ s.sl) (hsl496 : s.sl ≤ 496)
    (h0 : 0 ≤ s.volume) (h1 : s.volume ≤ MAX_ATT_INDEX)
    (hd : s.state = EG_DECAY → s.volume ≤ s.sl) :
    0 ≤ (advanceSeq l s).volume ∧ (advanceSeq l s).volume ≤ MAX_ATT_INDEX := by
  have hmax : MAX_ATT_INDEX = 511 := by decide
  rw [hmax] at h1 ⊢
  induction l generalizing s with
  | nil => exact ⟨h0, h1⟩
  | cons n l ih =>
    have h := advanceEG_inv n s hsl0 hsl496 h0 h1 hd
    have hsl := h.2.2.1
    exact ih (advanceEnvelopeGenerator n s) (hsl ▸ hsl0) (hsl ▸ hsl496)
      h.1 h.2.1 h.2.2.2

theorem C1_volume_range_amended_witness :
    (0 ≤ slotW1.sl ∧ slotW1.sl ≤ 496 ∧ 0 ≤ slotW1.volume ∧
      slotW1.volume ≤ MAX_ATT_INDEX ∧ (slotW1.state = EG_DECAY → slotW1.volume ≤ slotW1.sl)) ∧
      (0 ≤ (advanceSeq [0, 1, 2, 3] slotW1).volume ∧
        (advanceSeq [0, 1, 2, 3] slotW1).volume ≤ MAX_ATT_INDEX) :=
  ⟨by decide,
   C1_volume_range_amended [0, 1, 2, 3] slotW1 (by decide) (by decide) (by decide)
     (by decide) (by decide)⟩

/-- C2.  `FM_KEYON` on an operator with no held key sources resets the
phase counter to 0 and enters ATTACK; on an operator already keyed it
leaves phase, envelope state and volume unchanged; in both cases it only
ORs the new key bit into the mask. -/
theorem C2_keyon (b : Nat) (s : Slot) :
    ((FM_KEYON b s).Cnt = if s.key = 0 then 0 else s.Cnt) ∧
      ((FM_KEYON b s).state = if s.key = 0 then EG_ATTACK else s.state) ∧
      (FM_KEYON b s).volume = s.volume ∧
      (FM_KEYON b s).key = s.key ||| b := by
  unfold FM_KEYON
  by_cases h : s.key = 0 <;> simp [h]

/-- C5.  In ATTACK state, on a tick where the counter passes the rate mask
the volume is updated by `volume += (~volume * inc) >> 3` with `inc` read
from `eg_inc` at the precomputed selector/shift pair, the state moving to
DECAY (with the volume clamped to 0) exactly when the updated volume
reaches minimum attenuation; on a masked tick nothing changes. -/
theorem C5_attack_step (n : Nat) (s : Slot) (h : s.state = EG_ATTACK) :
    advanceEnvelopeGenerator n s =
      (if n &&& s.eg_m_ar = 0 then
        if s.volume + sar (cNot s.volume *
            egIncAt (s.eg_sel_ar + ((n >>> s.eg_sh_ar) &&& 7))) 3 ≤ MIN_ATT_INDEX then
          { s with volume := MIN_ATT_INDEX, state := EG_DECAY }
        else
          { s with volume := s.volume + sar (cNot s.volume *
              egIncAt (s.eg_sel_ar + ((n >>> s.eg_sh_ar) &&& 7))) 3 }
      else s) ∧
      ((advanceEnvelopeGenerator n s).state = EG_DECAY ↔
        n &&& s.eg_m_ar = 0 ∧
          s.volume + sar (cNot s.volume *
            egIncAt (s.eg_sel_ar + ((n >>> s.eg_sh_ar) &&& 7))) 3 ≤ MIN_ATT_INDEX) := by
  unfold advanceEnvelopeGenerator
  rw [h]
  refine ⟨rfl, ?_⟩
  by_cases htick : n &&& s.eg_m_ar = 0
  · by_cases hclamp : s.volume + sar (cNot s.volume *
        egIncAt (s.eg_sel_ar + ((n >>> s.eg_sh_ar) &&& 7))) 3 ≤ MIN_ATT_INDEX <;>
      simp [htick, hclamp]
  · simp [htick, h]

theorem C5_attack_step_witness :
    slotW5.state = EG_ATTACK ∧
      ((advanceEnvelopeGenerator 0 slotW5).state = EG_DECAY ↔
        0 &&& slotW5.eg_m_ar = 0 ∧
          slotW5.volume + sar (cNot slotW5.volume *
            egIncAt (slotW5.eg_sel_ar + ((0 >>> slotW5.eg_sh_ar) &&& 7))) 3 ≤ MIN_ATT_INDEX) :=
  ⟨by decide, (C5_attack_step 0 slotW5 (by decide)).2⟩

/-- C6.  The claim as frozen is false: ATTACK can be re-entered by a key-on
while the operator is still in RELEASE (not OFF), as soon as all key
sources have been released.  The state below is reached from the initial
slot by key-on followed by key-off, leaves RELEASE. -/
theorem C6_state_order_counterexample :
    slotC6.state = EG_RELEASE ∧ slotC6.state ≠ EG_OFF ∧ slotC6.key = 0 ∧
      (FM_KEYON 1 slotC6).state = EG_ATTACK := by
  decide

/-- C6 (amended).  Under every state-changing operation (envelope advance,
key-on, key-off) the envelope state only moves forward along
ATTACK, DECAY, SUSTAIN, RELEASE, OFF, except that a key-on on an operator
whose key bitmask is zero (a state in RELEASE or OFF) re-enters ATTACK. -/
theorem C6_state_order_amended (op : SlotOp) (s : Slot) :
    stateRank s.state ≤ stateRank (applyOp op s).state ∨
      ((∃ b, op = SlotOp.keyon b) ∧ s.key = 0 ∧ (applyOp op s).state = EG_ATTACK) := by
  cases op with
  | adv n =>
    left
    unfold applyOp advanceEnvelopeGenerator
    cases hstate : s.state
    case EG_ATTACK =>
      simp only [hstate]
      split_ifs <;> simp [hstate, stateRank]
    case EG_DECAY =>
      simp only [hstate]
      split_ifs <;> simp [hstate, stateRank]
    case EG_SUSTAIN =>
      simp only [hstate]
      split_ifs <;> simp [hstate, stateRank]
    case EG_RELEASE =>
      simp only [hstate]
      split_ifs <;> simp [hstate, stateRank]
    case EG_OFF =>
      simp [hstate, stateRank]
  | keyon b =>
    unfold applyOp FM_KEYON
    by_cases h : s.key = 0
    · right
      exact ⟨⟨b, rfl⟩, h, by simp [h]⟩
    · left
      simp [h]
  | keyoff b =>
    left
    unfold applyOp FM_KEYOFF
    dsimp only
    by_cases h : s.key ≠ 0
    · rw [if_pos h]
      by_cases h2 : s.key &&& (0xFF ^^^ b) = 0 ∧ s.state ≠ EG_OFF
      · rw [if_pos h2]
        obtain ⟨-, hoff⟩ := h2
        cases hstate : s.state
        all_goals first
          | exact absurd hstate hoff
          | simp [hstate, stateRank]
      · rw [if_neg h2]
    · rw [if_neg h]

/-- C9.  `readStatus` returns `status | status2` and clears `status2`, so a
following `peekStatus` no longer shows the transient bits; `peekStatus`
returns the same byte `readStatus` would return at that moment (being a
pure function, it changes no state); `readReg` is a pure register-file
read. -/
theorem C9_status_reads (c : Chip) (r : Nat) :
    (readStatus c).1 = c.status ||| c.status2 ∧
      (readStatus c).2 = { c with status2 := 0 } ∧
      peekStatus (readStatus c).2 = c.status ∧
      peekStatus c = (readStatus c).1 ∧
      readReg r c = c.reg r := by
  refine ⟨rfl, rfl, ?_, rfl, rfl⟩
  simp [peekStatus, readStatus]

theorem Channel.setSlot_extended (ch : Channel) (k : Nat) (s : Slot) :
    (ch.setSlot k s).extended = ch.extended := by
  unfold Channel.setSlot
  split <;> rfl

@[simp] theorem setCh_reg (c : Chip) (m : Nat) (ch : Channel) :
    (setCh c m ch).reg = c.reg := rfl

@[simp] theorem setCh_OPL3 (c : Chip) (m : Nat) (ch : Channel) :
    (setCh c m ch).OPL3_mode = c.OPL3_mode := rfl

@[simp] theorem setCh_status2 (c : Chip) (m : Nat) (ch : Channel) :
    (setCh c m ch).status2 = c.status2 := rfl

@[simp] theorem setPan_reg (c : Chip) (i m : Nat) : (setPan c i m).reg = c.reg := rfl

@[simp] theorem setPan_OPL3 (c : Chip) (i m : Nat) :
    (setPan c i m).OPL3_mode = c.OPL3_mode := rfl

@[simp] theorem setPan_status2 (c : Chip) (i m : Nat) :
    (setPan c i m).status2 = c.status2 := rfl

@[simp] theorem setPan_channels (c : Chip) (i m : Nat) :
    (setPan c i m).channels = c.channels := rfl

@[simp] theorem modSlot_reg (c : Chip) (m k : Nat) (f : Slot → Slot) :
    (modSlot c m k f).reg = c.reg := rfl

@[simp] theorem modSlot_OPL3 (c : Chip) (m k : Nat) (f : Slot → Slot) :
    (modSlot c m k f).OPL3_mode = c.OPL3_mode := rfl

@[simp] theorem modSlot_status2 (c : Chip) (m k : Nat) (f : Slot → Slot) :
    (modSlot c m k f).status2 = c.status2 := rfl

@[simp] theorem resetStatus_reg (f : Nat) (c : Chip) : (resetStatus f c).reg = c.reg := by
  unfold resetStatus
  dsimp only
  split <;> rfl

@[simp] theorem resetStatus_OPL3 (f : Nat) (c : Chip) :
    (resetStatus f c).OPL3_mode = c.OPL3_mode := by
  unfold resetStatus
  dsimp only
  split <;> rfl

@[simp] theorem resetStatus_status2 (f : Nat) (c : Chip) :
    (resetStatus f c).status2 = c.status2 := by
  unfold resetStatus
  dsimp only
  split <;> rfl

@[simp] theorem resetStatus_channels (f : Nat) (c : Chip) :
    (resetStatus f c).channels = c.channels := by
  unfold resetStatus
  dsimp only
  split <;> rfl

@[simp] theorem changeStatusMask_reg (f : Nat) (c : Chip) :
    (changeStatusMask f c).reg = c.reg := by
  unfold changeStatusMask
  dsimp only
  split <;> rfl

@[simp] theorem changeStatusMask_OPL3 (f : Nat) (c : Chip) :
    (changeStatusMask f c).OPL3_mode = c.OPL3_mode := by
  unfold changeStatusMask
  dsimp only
  split <;> rfl

@[simp] theorem changeStatusMask_status2 (f : Nat) (c : Chip) :
    (changeStatusMask f c).status2 = c.status2 := by
  unfold changeStatusMask
  dsimp only
  split <;> rfl

@[simp] theorem changeStatusMask_channels (f : Nat) (c : Chip) :
    (changeStatusMask f c).channels = c.channels := by
  unfold changeStatusMask
  dsimp only
  split <;> rfl

@[simp] theorem set_mul_reg (sl v : Nat) (c : Chip) : (set_mul sl v c).reg = c.reg := rfl

@[simp] theorem set_mul_OPL3 (sl v : Nat) (c : Chip) :
    (set_mul sl v c).OPL3_mode = c.OPL3_mode := rfl

@[simp] theorem set_mul_status2 (sl v : Nat) (c : Chip) :
    (set_mul sl v c).status2 = c.status2 := rfl

@[simp] theorem set_ksl_tl_reg (sl v : Nat) (c : Chip) : (set_ksl_tl sl v c).reg = c.reg := rfl

@[simp] theorem set_ksl_tl_OPL3 (sl v : Nat) (c : Chip) :
    (set_ksl_tl sl v c).OPL3_mode = c.OPL3_mode := rfl

@[simp] theorem set_ksl_tl_status2 (sl v : Nat) (c : Chip) :
    (set_ksl_tl sl v c).status2 = c.status2 := rfl

@[simp] theorem set_ar_dr_reg (sl v : Nat) (c : Chip) : (set_ar_dr sl v c).reg = c.reg := rfl

@[simp] theorem set_ar_dr_OPL3 (sl v : Nat) (c : Chip) :
    (set_ar_dr sl v c).OPL3_mode = c.OPL3_mode := rfl

@[simp] theorem set_ar_dr_status2 (sl v : Nat) (c : Chip) :
    (set_ar_dr sl v c).status2 = c.status2 := rfl

@[simp] theorem set_sl_rr_reg (sl v : Nat) (c : Chip) : (set_sl_rr sl v c).reg = c.reg := rfl

@[simp] theorem set_sl_rr_OPL3 (sl v : Nat) (c : Chip) :
    (set_sl_rr sl v c).OPL3_mode = c.OPL3_mode := rfl

@[simp] theorem set_sl_rr_status2 (sl v : Nat) (c : Chip) :
    (set_sl_rr sl v c).status2 = c.status2 := rfl

@[simp] theorem connectTwoOp_reg (m : Nat) (c : Chip) : (connectTwoOp m c).reg = c.reg := rfl

@[simp] theorem connectTwoOp_OPL3 (m : Nat) (c : Chip) :
    (connectTwoOp m c).OPL3_mode = c.OPL3_mode := rfl

@[simp] theorem connectTwoOp_status2 (m : Nat) (c : Chip) :
    (connectTwoOp m c).status2 = c.status2 := rfl

@[simp] theorem connectFourOp_reg (m : Nat) (c : Chip) : (connectFourOp m c).reg = c.reg := rfl

@[simp] theorem connectFourOp_OPL3 (m : Nat) (c : Chip) :
    (connectFourOp m c).OPL3_mode = c.OPL3_mode := rfl

@[simp] theorem connectFourOp_status2 (m : Nat) (c : Chip) :
    (connectFourOp m c).status2 = c.status2 := rfl

@[simp] theorem keyOnOffB0_reg (m v : Nat) (c : Chip) : (keyOnOffB0 m v c).reg = c.reg := by
  unfold keyOnOffB0
  dsimp only
  repeat' split
  all_goals rfl

@[simp] theorem keyOnOffB0_OPL3 (m v : Nat) (c : Chip) :
    (keyOnOffB0 m v c).OPL3_mode = c.OPL3_mode := by
  unfold keyOnOffB0
  dsimp only
  repeat' split
  all_goals rfl

@[simp] theorem keyOnOffB0_status2 (m v : Nat) (c : Chip) :
    (keyOnOffB0 m v c).status2 = c.status2 := by
  unfold keyOnOffB0
  dsimp only
  repeat' split
  all_goals rfl

@[simp] theorem refreshFreq_reg (m : Nat) (c : Chip) : (refreshFreq m c).reg = c.reg := by
  unfold refreshFreq
  dsimp only
  repeat' split
  all_goals rfl

@[simp] theorem refreshFreq_OPL3 (m : Nat) (c : Chip) :
    (refreshFreq m c).OPL3_mode = c.OPL3_mode := by
  unfold refreshFreq
  dsimp only
  repeat' split
  all_goals rfl

@[simp] theorem refreshFreq_status2 (m : Nat) (c : Chip) :
    (refreshFreq m c).status2 = c.status2 := by
  unfold refreshFreq
  dsimp only
  repeat' split
  all_goals rfl

@[simp] theorem writeRegA0_reg (r o v : Nat) (c : Chip) : (writeRegA0 r o v c).reg = c.reg := by
  unfold writeRegA0
  dsimp only
  repeat' split
  all_goals simp

@[simp] theorem writeRegA0_OPL3 (r o v : Nat) (c : Chip) :
    (writeRegA0 r o v c).OPL3_mode = c.OPL3_mode := by
  unfold writeRegA0
  dsimp only
  repeat' split
  all_goals simp

@[simp] theorem writeRegA0_status2 (r o v : Nat) (c : Chip) :
    (writeRegA0 r o v c).status2 = c.status2 := by
  unfold writeRegA0
  dsimp only
  repeat' split
  all_goals simp

@[simp] theorem writeRegC0_reg (r o v : Nat) (c : Chip) : (writeRegC0 r o v c).reg = c.reg := by
  unfold writeRegC0
  dsimp only
  repeat' split
  all_goals simp

@[simp] theorem writeRegC0_OPL3 (r o v : Nat) (c : Chip) :
    (writeRegC0 r o v c).OPL3_mode = c.OPL3_mode := by
  unfold writeRegC0
  dsimp only
  repeat' split
  all_goals simp

@[simp] theorem writeRegC0_status2 (r o v : Nat) (c : Chip) :
    (writeRegC0 r o v c).status2 = c.status2 := by
  unfold writeRegC0
  dsimp only
  repeat' split
  all_goals simp

theorem writeRegSwitch_reg (r o v : Nat) (c : Chip) :
    (writeRegSwitch r o v c).reg = c.reg := by
  unfold writeRegSwitch
  repeat' split
  all_goals simp

theorem writeRegSwitch_OPL3 (r o v : Nat) (c : Chip) :
    (writeRegSwitch r o v c).OPL3_mode = c.OPL3_mode := by
  unfold writeRegSwitch
  repeat' split
  all_goals simp

theorem writeRegSwitch_status2 (r o v : Nat) (c : Chip) :
    (writeRegSwitch r o v c).status2 = c.status2 := by
  unfold writeRegSwitch
  repeat' split
  all_goals simp

theorem setCh_extended_apply (c : Chip) (m : Nat) (ch : Channel) (n : Nat) :
    ((setCh c m ch).channels n).extended =
      if n = m then ch.extended else (c.channels n).extended := by
  unfold setCh
  dsimp only
  by_cases h : n = m
  · subst h
    rw [Function.update_same]
    simp
  · rw [Function.update_noteq h]
    simp [h]

@[simp] theorem refreshChannel2_extended (ch : Channel) :
    (refreshChannel2 ch).extended = ch.extended := rfl

@[simp] theorem modSlot_channels_extended (c : Chip) (m k : Nat) (f : Slot → Slot) (n : Nat) :
    ((modSlot c m k f).channels n).extended = (c.channels n).extended := by
  unfold modSlot
  dsimp only
  rw [setCh_extended_apply]
  by_cases h : n = m
  · rw [if_pos h, Channel.setSlot_extended, h]
  · rw [if_neg h]

@[simp] theorem set_mul_channels_extended (sl v : Nat) (c : Chip) (n : Nat) :
    ((set_mul sl v c).channels n).extended = (c.channels n).extended := by
  unfold set_mul
  dsimp only
  rw [setCh_extended_apply]
  by_cases h : n = sl / 2
  · rw [if_pos h, Channel.setSlot_extended, h]
  · rw [if_neg h]

@[simp] theorem set_ksl_tl_channels_extended (sl v : Nat) (c : Chip) (n : Nat) :
    ((set_ksl_tl sl v c).channels n).extended = (c.channels n).extended := by
  unfold set_ksl_tl
  dsimp only
  rw [setCh_extended_apply]
  by_cases h : n = sl / 2
  · rw [if_pos h, Channel.setSlot_extended, h]
  · rw [if_neg h]

@[simp] theorem set_ar_dr_channels_extended (sl v : Nat) (c : Chip) (n : Nat) :
    ((set_ar_dr sl v c).channels n).extended = (c.channels n).extended := by
  unfold set_ar_dr
  dsimp only
  rw [setCh_extended_apply]
  by_cases h : n = sl / 2
  · rw [if_pos h, Channel.setSlot_extended, h]
  · rw [if_neg h]

@[simp] theorem set_sl_rr_channels_extended (sl v : Nat) (c : Chip) (n : Nat) :
    ((set_sl_rr sl v c).channels n).extended = (c.channels n).extended := by
  unfold set_sl_rr
  dsimp only
  rw [setCh_extended_apply]
  by_cases h : n = sl / 2
  · rw [if_pos h, Channel.setSlot_extended, h]
  · rw [if_neg h]

@[simp] theorem connectTwoOp_channels_extended (m : Nat) (c : Chip) (n : Nat) :
    ((connectTwoOp m c).channels n).extended = (c.channels n).extended := by
  unfold connectTwoOp
  dsimp only
  rw [setCh_extended_apply]
  by_cases h : n = m
  · rw [if_pos h]
    dsimp only
    rw [h]
  · rw [if_neg h]

@[simp] theorem connectFourOp_channels_extended (m : Nat) (c : Chip) (n : Nat) :
    ((connectFourOp m c).channels n).extended = (c.channels n).extended := by
  unfold connectFourOp
  dsimp only
  simp only [setCh_extended_apply]
  by_cases h3 : n = m + 3 <;> by_cases h0 : n = m <;>
    simp [h3, h0, show m + 3 ≠ m by omega]

@[simp] theorem keyOnOffB0_channels_extended (m v : Nat) (c : Chip) (n : Nat) :
    ((keyOnOffB0 m v c).channels n).extended = (c.channels n).extended := by
  unfold keyOnOffB0
  dsimp only
  repeat' split
  all_goals simp

@[simp] theorem refreshFreq_channels_extended (m : Nat) (c : Chip) (n : Nat) :
    ((refreshFreq m c).channels n).extended = (c.channels n).extended := by
  unfold refreshFreq
  dsimp only
  repeat' split
  all_goals simp only [setCh_extended_apply, refreshChannel2_extended]
  all_goals (try split_ifs) <;> (try simp_all) <;> omega

@[simp] theorem writeRegA0_channels_extended (r o v : Nat) (c : Chip) (n : Nat) :
    ((writeRegA0 r o v c).channels n).extended = (c.channels n).extended := by
  unfold writeRegA0
  dsimp only
  repeat' split
  all_goals simp [setCh_extended_apply]
  all_goals (try split_ifs) <;> (try simp_all)

@[simp] theorem writeRegC0_channels_extended (r o v : Nat) (c : Chip) (n : Nat) :
    ((writeRegC0 r o v c).channels n).extended = (c.channels n).extended := by
  unfold writeRegC0
  dsimp only
  repeat' split
  all_goals simp

theorem writeRegSwitch_channels_extended (r o v : Nat) (c : Chip) (n : Nat) :
    ((writeRegSwitch r o v c).channels n).extended = (c.channels n).extended := by
  unfold writeRegSwitch
  repeat' split
  all_goals simp [setCh_extended_apply, Channel.setSlot_extended]
  all_goals (try split_ifs) <;> (try simp_all)

theorem land_mask_eq_sub (r : Nat) (h1 : 256 ≤ r) (h2 : r < 512) :
    r &&& 0xFFFFFEFF = r - 256 :=
  (by decide : ∀ j, j < 512 → 256 ≤ j → j &&& 0xFFFFFEFF = j - 256) r h2 h1

theorem land_256_eq_zero (r : Nat) (h : r < 256) : r &&& 0x100 = 0 :=
  (by decide : ∀ j, j < 256 → j &&& 0x100 = 0) r h

/-- C10.  `FM_KEYOFF` only clears key bits and, exactly when the last key
bit is cleared on a non-OFF operator, moves the state to RELEASE; the
phase counter, volume and every rate/level parameter are untouched, and an
operator whose key mask is already empty (in particular one in OFF) is left
entirely unchanged. -/
theorem C10_keyoff_frame (b : Nat) (s : Slot) :
    FM_KEYOFF b s =
      { s with
        key := if s.key = 0 then s.key else s.key &&& (0xFF ^^^ b),
        state := if s.key ≠ 0 ∧ s.key &&& (0xFF ^^^ b) = 0 ∧ s.state ≠ EG_OFF
                 then EG_RELEASE else s.state } := by
  unfold FM_KEYOFF
  dsimp only
  by_cases h : s.key = 0
  · rw [if_neg (not_not_intro h), if_pos h,
      if_neg (fun hc : s.key ≠ 0 ∧ _ => hc.1 h)]
  · rw [if_pos h, if_neg h]
    by_cases h2 : s.key &&& (0xFF ^^^ b) = 0 ∧ s.state ≠ EG_OFF
    · rw [if_pos h2, if_pos ⟨h, h2⟩]
    · rw [if_neg h2, if_neg (fun hc : s.key ≠ 0 ∧ _ => h2 hc.2)]

/-- C3.  Writing 0xBD with the rhythm-enable bit clear performs, within the
same write, `FM_KEYOFF` of the rhythm key source (bit 2) on all six
percussion slots: channel 6 slots 1 and 2, channel 7 slots 1 and 2 and
channel 8 slots 1 and 2, force-releasing all five percussion voices
regardless of their prior key state. -/
theorem C3_rhythm_disable_keyoff (v : Nat) (c : Chip) (h : v &&& 0x20 = 0) :
    ((writeRegForce 0xBD v c).channels 6).slot1 = FM_KEYOFF 2 (c.channels 6).slot1 ∧
      ((writeRegForce 0xBD v c).channels 6).slot2 = FM_KEYOFF 2 (c.channels 6).slot2 ∧
      ((writeRegForce 0xBD v c).channels 7).slot1 = FM_KEYOFF 2 (c.channels 7).slot1 ∧
      ((writeRegForce 0xBD v c).channels 7).slot2 = FM_KEYOFF 2 (c.channels 7).slot2 ∧
      ((writeRegForce 0xBD v c).channels 8).slot1 = FM_KEYOFF 2 (c.channels 8).slot1 ∧
      ((writeRegForce 0xBD v c).channels 8).slot2 = FM_KEYOFF 2 (c.channels 8).slot2 := by
  have h35 : (v &&& 0x3F) &&& 0x20 = 0 := by
    rw [Nat.land_assoc, (by decide : (0x3F : Nat) &&& 0x20 = 0x20), h]
  unfold writeRegForce
  rw [if_neg (by decide : ¬((0xBD : Nat) &&& 0x100 ≠ 0))]
  norm_num [writeRegSwitch, writeRegA0]
  rw [if_pos h35]
  simp [modSlot, setCh, Channel.setSlot, Channel.slotAt, Function.update_apply]

theorem C3_rhythm_disable_keyoff_witness :
    ((0x01 : Nat) &&& 0x20 = 0) ∧
      (((writeRegForce 0xBD 0x01 chipW3).channels 6).slot1 =
          FM_KEYOFF 2 (chipW3.channels 6).slot1 ∧
        ((writeRegForce 0xBD 0x01 chipW3).channels 6).slot2 =
          FM_KEYOFF 2 (chipW3.channels 6).slot2 ∧
        ((writeRegForce 0xBD 0x01 chipW3).channels 7).slot1 =
          FM_KEYOFF 2 (chipW3.channels 7).slot1 ∧
        ((writeRegForce 0xBD 0x01 chipW3).channels 7).slot2 =
          FM_KEYOFF 2 (chipW3.channels 7).slot2 ∧
        ((writeRegForce 0xBD 0x01 chipW3).channels 8).slot1 =
          FM_KEYOFF 2 (chipW3.channels 8).slot1 ∧
        ((writeRegForce 0xBD 0x01 chipW3).channels 8).slot2 =
          FM_KEYOFF 2 (chipW3.channels 8).slot2) :=
  ⟨by decide, C3_rhythm_disable_keyoff 0x01 chipW3 (by decide)⟩

/-- C4.  While extended (OPL3) mode is off, a `writeReg` to any address in
[256, 511] other than 0x105 modifies no page-2 register byte and none of
the page-2-only decode targets (the per-channel `extended` flags, the
`OPL3_mode` flag and `status2`); the mode-control register 0x105 is always
decoded, bit 0 of the written value setting extended mode. -/
theorem C4_page2_mode_gating (r v : Nat) (c : Chip)
    (h1 : 256 ≤ r) (h2 : r < 512) (h3 : r ≠ 0x105) (hm : c.OPL3_mode = false) :
    (∀ a, 256 ≤ a → a < 512 → (writeReg r v c).reg a = c.reg a) ∧
      (∀ n, ((writeReg r v c).channels n).extended = (c.channels n).extended) ∧
      (writeReg r v c).OPL3_mode = c.OPL3_mode ∧
      (writeReg r v c).status2 = c.status2 ∧
      (∀ w (d : Chip), ((writeReg 0x105 w d).OPL3_mode = true ↔ w &&& 0x01 ≠ 0) ∧
        (writeReg 0x105 w d).reg 0x105 = w) := by
  have hwr : writeReg r v c =
      writeRegSwitch (r - 256) 0 v { c with reg := Function.update c.reg (r - 256) v } := by
    unfold writeReg writeRegForce
    rw [if_pos ⟨by simp [hm], h3⟩, land_mask_eq_sub r h1 h2,
      if_neg (by simp [land_256_eq_zero (r - 256) (by omega)])]
  refine ⟨?_, ?_, ?_, ?_, ?_⟩
  · intro a ha1 ha2
    rw [hwr, writeRegSwitch_reg]
    dsimp only
    rw [Function.update_noteq (by omega)]
  · intro n
    rw [hwr, writeRegSwitch_channels_extended]
  · rw [hwr, writeRegSwitch_OPL3, hm]
  · rw [hwr, writeRegSwitch_status2]
  · intro w d
    unfold writeReg writeRegForce
    rw [if_neg (fun hc => hc.2 rfl)]
    rw [if_pos (by decide : (0x105 : Nat) &&& 0x100 ≠ 0)]
    rw [if_neg (by decide : ¬(0x105 : Nat) = 0x101)]
    rw [if_neg (by decide : ¬(0x105 : Nat) = 0x104)]
    rw [if_pos (rfl : (0x105 : Nat) = 0x105)]
    dsimp only
    split_ifs <;> simp_all [Function.update_same]

theorem C4_page2_mode_gating_witness :
    (256 ≤ (0x1A3 : Nat) ∧ (0x1A3 : Nat) < 512 ∧ (0x1A3 : Nat) ≠ 0x105 ∧
      Chip.initial.OPL3_mode = false) ∧
      (writeReg 0x1A3 0x55 Chip.initial).reg 0x1A3 = Chip.initial.reg 0x1A3 ∧
      ((writeReg 0x105 0x01 Chip.initial).OPL3_mode = true ↔ (0x01 : Nat) &&& 0x01 ≠ 0) :=
  ⟨by decide,
   (C4_page2_mode_gating 0x1A3 0x55 Chip.initial (by decide) (by decide) (by decide)
     rfl).1 0x1A3 (by decide) (by decide),
   ((C4_page2_mode_gating 0x1A3 0x55 Chip.initial (by decide) (by decide) (by decide)
     rfl).2.2.2.2 0x01 Chip.initial).1⟩

@[simp] theorem setCh_eg_cnt (c : Chip) (m : Nat) (ch : Channel) :
    (setCh c m ch).eg_cnt = c.eg_cnt := rfl

@[simp] theorem advance_lfo_eg_cnt (c : Chip) : (advance_lfo c).eg_cnt = c.eg_cnt := rfl

@[simp] theorem calcPair_eg_cnt (tl : Nat → Int) (sin : Nat → Nat) (f : Nat) (c : Chip)
    (acc : SampleAcc) : (calcPair tl sin f c acc).1.eg_cnt = c.eg_cnt := by
  unfold calcPair
  dsimp only
  split <;> rfl

@[simp] theorem calcOne_eg_cnt (tl : Nat → Int) (sin : Nat → Nat) (i : Nat) (c : Chip)
    (acc : SampleAcc) : (calcOne tl sin i c acc).1.eg_cnt = c.eg_cnt := rfl

@[simp] theorem chan_calc_rhythm_eg_cnt (tl : Nat → Int) (sin : Nat → Nat) (c : Chip)
    (acc : SampleAcc) : (chan_calc_rhythm tl sin c acc).1.eg_cnt = c.eg_cnt := rfl

theorem advanceAll_eg_cnt (n : Nat) (c : Chip) : (advanceAll n c).eg_cnt = c.eg_cnt := by
  induction n generalizing c with
  | zero => rfl
  | succ n ih =>
    unfold advanceAll
    dsimp only
    rw [setCh_eg_cnt, ih]

theorem advance_eg_cnt (c : Chip) : (advance c).eg_cnt = c.eg_cnt + 1 := by
  unfold advance
  dsimp only
  rw [advanceAll_eg_cnt]

theorem generateSample_eg_cnt (tl : Nat → Int) (sin : Nat → Nat) (c : Chip) :
    (generateSample tl sin c).1.eg_cnt = c.eg_cnt + 1 := by
  unfold generateSample
  dsimp only
  rw [advance_eg_cnt]
  simp only [calcPair_eg_cnt, calcOne_eg_cnt]
  split <;> simp

/-- C7.  The mute fast path is not state-equivalent to the full evaluation
path: on the canonical reachable all-muted state (the chip right after
reset), `generateChannels` takes the fast path and returns the state
untouched, while the full per-sample path it skips would have advanced the
envelope tick counter (and the LFO, phase and noise state with it) — the
`TODO update internal state, even if muted` comment in the source
acknowledges this divergence.  Stated for every value of the
floating-point-derived lookup tables. -/
theorem C7_mute_fastpath_divergence (tl : Nat → Int) (sin : Nat → Nat) :
    checkMuteHelper chipMute = true ∧
      generateChannels tl sin 1 chipMute = (none, chipMute) ∧
      (generateLoop tl sin 1 chipMute).2.eg_cnt = chipMute.eg_cnt + 1 ∧
      (generateChannels tl sin 1 chipMute).2.eg_cnt ≠
        (generateLoop tl sin 1 chipMute).2.eg_cnt := by
  have hmute : checkMuteHelper chipMute = true := by decide
  have hfast : generateChannels tl sin 1 chipMute = (none, chipMute) := by
    unfold generateChannels
    rw [if_pos hmute]
  have hloop : (generateLoop tl sin 1 chipMute).2.eg_cnt = chipMute.eg_cnt + 1 :=
    generateSample_eg_cnt tl sin chipMute
  refine ⟨hmute, hfast, hloop, ?_⟩
  rw [hfast, hloop]
  dsimp only
  omega

theorem setSlot_slotAt_self (ch : Channel) (k : Nat) :
    ch.setSlot k (ch.slotAt k) = ch := by
  by_cases h : k = 0 <;> simp [Channel.setSlot, Channel.slotAt, h]

theorem setCh_self (c : Chip) (n : Nat) : setCh c n (c.channels n) = c := by
  unfold setCh
  rw [Function.update_eq_self]

theorem modSlot_congr_id (c : Chip) (n k : Nat) (f : Slot → Slot)
    (h : f ((c.channels n).slotAt k) = (c.channels n).slotAt k) :
    modSlot c n k f = c := by
  unfold modSlot
  dsimp only
  rw [h, setSlot_slotAt_self, setCh_self]

theorem land_low_one (key : Nat) :
    key < 256 → key &&& 1 = 0 → key &&& 0xFE = key := by
  revert key
  decide

theorem land_low_two (key : Nat) :
    key < 256 → key &&& 2 = 0 → key &&& 0xFD = key := by
  revert key
  decide

theorem FM_KEYOFF_one_id (s : Slot) (hbit : s.key &&& 1 = 0) (hlt : s.key < 256) :
    FM_KEYOFF 1 s = s := by
  unfold FM_KEYOFF
  split
  · rw [if_neg]
    · show { s with key := s.key &&& 0xFE } = s
      rw [land_low_one s.key hlt hbit]
    · rw [show s.key &&& (0xFF ^^^ 1) = s.key from land_low_one s.key hlt hbit]
      rename_i hne
      exact fun hc => hne hc.1
  · rfl

theorem FM_KEYOFF_two_id (s : Slot) (hbit : s.key &&& 2 = 0) (hlt : s.key < 256) :
    FM_KEYOFF 2 s = s := by
  unfold FM_KEYOFF
  split
  · rw [if_neg]
    · show { s with key := s.key &&& 0xFD } = s
      rw [land_low_two s.key hlt hbit]
    · rw [show s.key &&& (0xFF ^^^ 2) = s.key from land_low_two s.key hlt hbit]
      rename_i hne
      exact fun hc => hne hc.1
  · rfl

theorem CALC_FCSLOT_id (ch : Channel) (s : Slot)
    (hI : s.Incr = ch.fc * s.mul) (hk : s.ksr = ch.kcode >>> s.KSR) :
    CALC_FCSLOT ch s = s := by
  unfold CALC_FCSLOT
  dsimp only
  rw [← hI, if_pos hk]

theorem slot_array_entry_lt :
    ∀ o, o < 32 → (slot_array.getD o none).getD 0 < 18 := by
  decide

theorem slot_array_getD_high (o : Nat) (ho : 32 ≤ o) :
    slot_array.getD o none = none := by
  have hsz : slot_array.size = 32 := rfl
  unfold Array.getD
  rw [dif_neg]
  omega

theorem slot_array_lt (o s : Nat) (h : slot_array.getD o none = some s) :
    s < 18 := by
  by_cases ho : o < 32
  · have H := slot_array_entry_lt o ho
    rw [h] at H
    simpa using H
  · rw [slot_array_getD_high o (by omega)] at h
    exact absurd h (by simp)

theorem chInv_slotAt (c : Chip) (n k : Nat) (h : chInv c n) (hk : k < 2) :
    slotInvAt (pairSel c n) ((c.channels n).slotAt k) := by
  interval_cases k
  · exact h.2.2.2.2.2.1
  · exact h.2.2.2.2.2.2.1

end YMF262
